import Mathlib

/-!
# ThinkPad WMI driver: a shallow embedding of `drivers/platform/x86/thinkpad-wmi.c`

Conventions of the embedding.

* A C `char` is modelled by the Lean character with the same code (the byte
  value); a C string is the list of the characters that precede its
  terminating NUL (`CStr`).  A raw input buffer, which may hold a NUL
  anywhere, is a plain list of characters and is read through `cstr`.
* A fixed-size `char` array of the device structure is modelled by the C
  string it holds; every access of the driver to these arrays goes through
  the C string functions.
* `int`/`ssize_t` results are integers, negative errno values included.
* The firmware (ACPI/WMI) is a parameter: a stub that answers every call.
-/

namespace ThinkpadWmi

/-! ## Kernel constants and string helpers -/

/-- Linux errno values of `include/uapi/asm-generic/errno-base.h`. -/
def EPERM : Int := 1
/-- Input/output error. -/
def EIO : Int := 5
/-- Argument list too long. -/
def E2BIG : Int := 7
/-- Out of memory. -/
def ENOMEM : Int := 12
/-- Device or resource busy. -/
def EBUSY : Int := 16
/-- No such device. -/
def ENODEV : Int := 19
/-- Invalid argument. -/
def EINVAL : Int := 22

/-- The value of `INT_MAX`. -/
def INT_MAX : Nat := 2 ^ 31 - 1

/-- A C string: the characters before the terminating NUL. -/
abbrev CStr := List Char

/-- The NUL character. -/
def NUL : Char := Char.ofNat 0

/-- The C string that starts a raw buffer: everything before the first NUL. -/
def cstr (buf : List Char) : CStr := buf.takeWhile (fun c => c != NUL)

/-- Kernel `isspace` (the `_S` class of `lib/ctype.c`): codes 9 to 13, 32 and 160. -/
def isspace (c : Char) : Bool :=
  (decide (9 ≤ c.toNat) && decide (c.toNat ≤ 13)) || c.toNat == 32 || c.toNat == 160

/-- Kernel `strcmp`: three-way comparison by unsigned character code. -/
def strcmp : CStr → CStr → Int
  | [], [] => 0
  | [], _ :: _ => -1
  | _ :: _, [] => 1
  | a :: as, b :: bs =>
    if a ≠ b then (if a.toNat < b.toNat then -1 else 1) else strcmp as bs

/-- Kernel `strlen`. -/
def strlen (s : CStr) : Nat := s.length

/-- Kernel `strcpy`: the destination holds a copy of the source. -/
def strcpy (_dest src : CStr) : CStr := src

/-- Kernel `strcat`: the source is appended to the destination. -/
def strcat (dest src : CStr) : CStr := dest ++ src

/-- Kernel `strncat`: at most `count` characters of the C string at `src` are appended. -/
def strncat (dest : CStr) (src : List Char) (count : Nat) : CStr :=
  dest ++ (cstr src).take count

/-- Kernel `skip_spaces`: the string after its leading white space. -/
def skip_spaces (s : CStr) : CStr := s.dropWhile isspace

/-- Kernel `strim`: trailing white space is cut off in place (first component, the
buffer afterwards); the returned pointer (second component) skips the leading
white space of what is left. -/
def strim (s : CStr) : CStr × CStr :=
  let b := s.rdropWhile isspace
  (b, skip_spaces b)

/-- Kernel `strchr` followed by a cut at the hit: the string before the first `c`
(the whole string when `c` does not occur). -/
def strchr_cut (s : CStr) (c : Char) : CStr := s.takeWhile (fun x => x != c)

/-- Kernel `strchr` followed by a step over the hit: the string after the first
`c`, or `none` when `c` does not occur. -/
def strchr_after (s : CStr) (c : Char) : Option CStr :=
  match s.dropWhile (fun x => x != c) with
  | [] => none
  | _ :: rest => some rest

/-- Kernel `strscpy`: copies the C string `src` into a destination of `count`
bytes; returns the number of characters copied, or `-E2BIG` when the
destination is too small (it then holds the first `count - 1` characters). -/
def strscpy (dest src : CStr) (count : Nat) : Int × CStr :=
  if count = 0 ∨ count > INT_MAX then (-E2BIG, dest)
  else if src.length < count then ((src.length : Int), src)
  else (-E2BIG, src.take (count - 1))

/-! ## Return values -/

/-- Firmware status "Success". -/
def THINKPAD_WMI_SUCCESS : Int := 0
/-- Firmware status "Not Supported". -/
def THINKPAD_WMI_NOT_SUPPORTED : Int := -ENODEV
/-- Firmware status "Invalid". -/
def THINKPAD_WMI_INVALID : Int := -EINVAL
/-- Firmware status "Access Denied". -/
def THINKPAD_WMI_ACCESS_DENIED : Int := -EPERM
/-- Firmware status "System Busy". -/
def THINKPAD_WMI_SYSTEM_BUSY : Int := -EBUSY

/-- Source `thinkpad_wmi_errstr_to_err`. -/
def thinkpad_wmi_errstr_to_err (errstr : CStr) : Int :=
  if strcmp errstr "Success".toList = 0 then THINKPAD_WMI_SUCCESS
  else if strcmp errstr "Not Supported".toList = 0 then THINKPAD_WMI_NOT_SUPPORTED
  else if strcmp errstr "Invalid".toList = 0 then THINKPAD_WMI_INVALID
  else if strcmp errstr "Access Denied".toList = 0 then THINKPAD_WMI_ACCESS_DENIED
  else if strcmp errstr "System Busy".toList = 0 then THINKPAD_WMI_SYSTEM_BUSY
  else -EINVAL

/-! ## The firmware interface -/

/-- The WMI GUIDs the driver names (the `LENOVO_*_GUID` macros). -/
inductive Guid
  | LENOVO_BIOS_SETTING_GUID
  | LENOVO_SET_BIOS_SETTINGS_GUID
  | LENOVO_SAVE_BIOS_SETTINGS_GUID
  | LENOVO_DISCARD_BIOS_SETTINGS_GUID
  | LENOVO_LOAD_DEFAULT_SETTINGS_GUID
  | LENOVO_BIOS_PASSWORD_SETTINGS_GUID
  | LENOVO_SET_BIOS_PASSWORD_GUID
  | LENOVO_GET_BIOS_SELECTIONS_GUID
  | LENOVO_QUERY_GUID
  deriving DecidableEq, Repr

/-- A byte of a firmware buffer. -/
abbrev Byte := Fin 256

/-- The object an ACPI call hands back (`union acpi_object`): a string with its
pointer (`none` is NULL), a buffer with its pointer (its `length` is the length
of the byte list), or an object of any other type. -/
inductive acpi_object
  | string (pointer : Option CStr)
  | buffer (pointer : Option (List Byte))
  | other
  deriving DecidableEq, Repr

/-- What a WMI call produces: its `acpi_status` and the `pointer` of the output
`acpi_buffer` (`none` is NULL). -/
structure wmi_output where
  status : Nat
  pointer : Option acpi_object
  deriving DecidableEq, Repr

/-- A request to the firmware: `wmi_evaluate_method(guid, 0, 0, input, _)` or
`wmi_query_block(guid, inst, _)`. -/
inductive wmi_call
  | method (guid : Guid) (input : CStr)
  | query (guid : Guid) (inst : Nat)
  deriving DecidableEq, Repr

/-- The platform the driver runs on.  `firmware log c` is the answer to the
call `c` when `log` lists the calls made before it, so the firmware may keep
state; `alloc_ok log` tells whether a memory allocation attempted at that point
succeeds; `wmi_has_guid` is the kernel function of that name. -/
structure Platform where
  wmi_has_guid : Guid → Bool
  firmware : List wmi_call → wmi_call → wmi_output
  alloc_ok : List wmi_call → Bool

/-- ACPICA `ACPI_FAILURE`: a non-zero status. -/
def ACPI_FAILURE (status : Nat) : Bool := status != 0

/-- Conversion of an `int` to the unsigned 32-bit `acpi_status`. -/
def to_u32 (x : Int) : Nat := (x % 2 ^ 32).toNat

/-- Conversion of a `size_t` to `int`. -/
def to_int (n : Nat) : Int :=
  if n % 2 ^ 32 < 2 ^ 31 then ((n % 2 ^ 32 : Nat) : Int) else ((n % 2 ^ 32 : Nat) : Int) - 2 ^ 32

/-- Source `thinkpad_wmi_extract_error`. -/
def thinkpad_wmi_extract_error (output : wmi_output) : Int :=
  match output.pointer with
  | some (acpi_object.string (some errstr)) => thinkpad_wmi_errstr_to_err errstr
  | _ => - EIO

/-- Source `thinkpad_wmi_simple_call`; the second component is the call log afterwards. -/
def thinkpad_wmi_simple_call (P : Platform) (log : List wmi_call) (guid : Guid) (arg : CStr) :
    Int × List wmi_call :=
  let output := P.firmware log (wmi_call.method guid arg)
  let log1 := log ++ [wmi_call.method guid arg]
  if ACPI_FAILURE output.status then (- EIO, log1)
  else (thinkpad_wmi_extract_error output, log1)

/-- Source `thinkpad_wmi_extract_output_string`; `string` is the caller's
pointer before the call, the second component of the result the pointer after
it (`kstrdup` gives NULL when the allocation fails). -/
def thinkpad_wmi_extract_output_string (alloc : Bool) (output : wmi_output)
    (string : Option CStr) : Int × Option CStr :=
  match output.pointer with
  | some (acpi_object.string (some s)) => if alloc then (0, some s) else (-ENOMEM, none)
  | _ => (- EIO, string)

/-- Source `thinkpad_wmi_bios_setting`: result, `*value` afterwards, call log afterwards.
Every caller passes an `item` below 256, the range of the `u8` instance. -/
def thinkpad_wmi_bios_setting (P : Platform) (log : List wmi_call) (item : Nat)
    (value : Option CStr) : Int × Option CStr × List wmi_call :=
  let call := wmi_call.query Guid.LENOVO_BIOS_SETTING_GUID item
  let output := P.firmware log call
  let log1 := log ++ [call]
  if ACPI_FAILURE output.status then (- EIO, value, log1)
  else
    let r := thinkpad_wmi_extract_output_string (P.alloc_ok log1) output value
    (r.1, r.2, log1)

/-- Source `thinkpad_wmi_set_bios_settings`. -/
def thinkpad_wmi_set_bios_settings (P : Platform) (log : List wmi_call) (settings : CStr) :
    Int × List wmi_call :=
  thinkpad_wmi_simple_call P log Guid.LENOVO_SET_BIOS_SETTINGS_GUID settings

/-- Source `thinkpad_wmi_save_bios_settings`. -/
def thinkpad_wmi_save_bios_settings (P : Platform) (log : List wmi_call) (password : CStr) :
    Int × List wmi_call :=
  thinkpad_wmi_simple_call P log Guid.LENOVO_SAVE_BIOS_SETTINGS_GUID password

/-- Source `thinkpad_wmi_discard_bios_settings`. -/
def thinkpad_wmi_discard_bios_settings (P : Platform) (log : List wmi_call) (password : CStr) :
    Int × List wmi_call :=
  thinkpad_wmi_simple_call P log Guid.LENOVO_DISCARD_BIOS_SETTINGS_GUID password

/-! ## Password settings record -/

/-- Source `struct thinkpad_wmi_pcfg`: six `uint32_t` fields. -/
structure thinkpad_wmi_pcfg where
  password_mode : Nat
  password_state : Nat
  min_length : Nat
  max_length : Nat
  supported_encodings : Nat
  supported_keyboard : Nat
  deriving DecidableEq, Repr

/-- The size of `struct thinkpad_wmi_pcfg`: six 4-byte fields, no padding. -/
def sizeof_pcfg : Nat := 6 * 4

/-- The `uint32_t` stored in four consecutive bytes (x86, little endian). -/
def le32 (b0 b1 b2 b3 : Byte) : Nat :=
  b0.val + 2 ^ 8 * b1.val + 2 ^ 16 * b2.val + 2 ^ 24 * b3.val

/-- The 4-byte word number `k` of a byte buffer. -/
def word_at (bytes : List Byte) (k : Nat) : Nat :=
  le32 (bytes.getD (4 * k) 0) (bytes.getD (4 * k + 1) 0) (bytes.getD (4 * k + 2) 0)
    (bytes.getD (4 * k + 3) 0)

/-- The record that `memcpy(pcfg, bytes, sizeof(*pcfg))` leaves in `*pcfg`. -/
def pcfg_of_bytes (bytes : List Byte) : thinkpad_wmi_pcfg :=
  { password_mode := word_at bytes 0
    password_state := word_at bytes 1
    min_length := word_at bytes 2
    max_length := word_at bytes 3
    supported_encodings := word_at bytes 4
    supported_keyboard := word_at bytes 5 }

/-- The four bytes that store a `uint32_t` (x86, little endian). -/
def bytes_of_u32 (w : Nat) : List Byte :=
  [Fin.ofNat w, Fin.ofNat (w / 2 ^ 8), Fin.ofNat (w / 2 ^ 16), Fin.ofNat (w / 2 ^ 24)]

/-- The memory image of a `struct thinkpad_wmi_pcfg`. -/
def bytes_of_pcfg (p : thinkpad_wmi_pcfg) : List Byte :=
  bytes_of_u32 p.password_mode ++ bytes_of_u32 p.password_state ++ bytes_of_u32 p.min_length ++
    bytes_of_u32 p.max_length ++ bytes_of_u32 p.supported_encodings ++
    bytes_of_u32 p.supported_keyboard

/-- Source `thinkpad_wmi_password_settings`: result, `*pcfg` afterwards, call log afterwards. -/
def thinkpad_wmi_password_settings (P : Platform) (log : List wmi_call)
    (pcfg : thinkpad_wmi_pcfg) : Int × thinkpad_wmi_pcfg × List wmi_call :=
  let call := wmi_call.query Guid.LENOVO_BIOS_PASSWORD_SETTINGS_GUID 0
  let output := P.firmware log call
  let log1 := log ++ [call]
  if ACPI_FAILURE output.status then (- EIO, pcfg, log1)
  else
    match output.pointer with
    | some (acpi_object.buffer (some bytes)) =>
      if bytes.length ≠ sizeof_pcfg then (- EIO, pcfg, log1)
      else (0, pcfg_of_bytes bytes, log1)
    | _ => (- EIO, pcfg, log1)

/-! ## Device state -/

/-- Source `struct thinkpad_wmi` (the fields the protocol layer uses). -/
structure thinkpad_wmi where
  settings_count : Int
  password : CStr
  password_encoding : CStr
  password_kbdlang : CStr
  auth_string : CStr
  password_type : CStr
  can_set_bios_settings : Bool
  can_discard_bios_settings : Bool
  can_load_default_settings : Bool
  can_get_bios_selections : Bool
  can_set_bios_password : Bool
  can_get_password_settings : Bool
  settings : Nat → Option CStr

/-- The device structure as `kzalloc` returns it. -/
def thinkpad_wmi_zero : thinkpad_wmi :=
  { settings_count := 0
    password := []
    password_encoding := []
    password_kbdlang := []
    auth_string := []
    password_type := []
    can_set_bios_settings := false
    can_discard_bios_settings := false
    can_load_default_settings := false
    can_get_bios_selections := false
    can_set_bios_password := false
    can_get_password_settings := false
    settings := fun _ => none }

/-- The `char` arrays of the device structure that `store_auth` writes. -/
inductive auth_field
  | password
  | password_encoding
  | password_kbdlang
  | password_type
  deriving DecidableEq, Repr

/-- The `sizeof` of an array field: `char [64]`, `char [64]`, `char [4]`, `char [64]`. -/
def auth_field.sizeof : auth_field → Nat
  | auth_field.password => 64
  | auth_field.password_encoding => 64
  | auth_field.password_kbdlang => 4
  | auth_field.password_type => 64

/-- The C string held by an array field. -/
def auth_field.get (t : thinkpad_wmi) : auth_field → CStr
  | auth_field.password => t.password
  | auth_field.password_encoding => t.password_encoding
  | auth_field.password_kbdlang => t.password_kbdlang
  | auth_field.password_type => t.password_type

/-- The device structure after a write to an array field. -/
def auth_field.set (t : thinkpad_wmi) (v : CStr) : auth_field → thinkpad_wmi
  | auth_field.password => { t with password := v }
  | auth_field.password_encoding => { t with password_encoding := v }
  | auth_field.password_kbdlang => { t with password_kbdlang := v }
  | auth_field.password_type => { t with password_type := v }

/-- Source `update_auth_string`. -/
def update_auth_string (thinkpad : thinkpad_wmi) : thinkpad_wmi :=
  if thinkpad.password = [] then { thinkpad with auth_string := [] }
  else
    let a0 := strcpy thinkpad.auth_string thinkpad.password
    let a1 := if thinkpad.password_encoding ≠ [] then
        strcat (strcat a0 ",".toList) thinkpad.password_encoding else a0
    let a2 := if thinkpad.password_kbdlang ≠ [] then
        strcat (strcat a1 ",".toList) thinkpad.password_kbdlang else a1
    { thinkpad with auth_string := a2 }

/-- The `size_t` value of `size - 1`. -/
def size_minus_one (size : Nat) : Nat := (size + 2 ^ 64 - 1) % 2 ^ 64

/-- Source `store_auth`; `capable` is the outcome of `capable(CAP_SYS_ADMIN)`,
`buf` the `count` bytes written (sysfs places a NUL after them), `dst` the array
field written and `size` its size. -/
def store_auth (capable : Bool) (thinkpad : thinkpad_wmi) (buf : List Char) (count : Nat)
    (dst : auth_field) (size : Nat) : Int × thinkpad_wmi :=
  if !capable then (-EPERM, thinkpad)
  else if count > size_minus_one size then (-EINVAL, thinkpad)
  else
    let r := strscpy (dst.get thinkpad) (cstr buf) size
    let t1 := dst.set thinkpad r.2
    if r.1 < 0 then (r.1, t1)
    else
      let t2 := if count ≠ 0 then dst.set t1 (strim (dst.get t1)).1 else t1
      ((count : Int), update_auth_string t2)

/-- The `store_<name>` callbacks that `THINKPAD_WMI_CREATE_AUTH_ATTR` generates:
`store_auth` on the field with its `sizeof`. -/
def store_attr (dst : auth_field) (capable : Bool) (thinkpad : thinkpad_wmi)
    (buf : List Char) : Int × thinkpad_wmi :=
  store_auth capable thinkpad buf buf.length dst dst.sizeof

/-- One write to an authentication attribute: the field, the outcome of the
capability check and the bytes written. -/
structure auth_write where
  dst : auth_field
  capable : Bool
  buf : List Char

/-- The device state after a sequence of writes to the authentication attributes. -/
def run_auth_writes (thinkpad : thinkpad_wmi) : List auth_write → thinkpad_wmi
  | [] => thinkpad
  | w :: ws => run_auth_writes (store_attr w.dst w.capable thinkpad w.buf).2 ws

/-! ## Settings attributes -/

/-- The request string that `store_setting` assembles in `buffer`. -/
def store_setting_buffer (item : CStr) (auth_string : CStr) (buf : List Char) (count : Nat) :
    CStr :=
  let b0 := strcpy [] item
  let b1 := strcat b0 ",".toList
  let b2 := strncat b1 buf count
  let b3 := if count ≠ 0 then (strim b2).1 else b2
  let b4 := if auth_string ≠ [] then strcat (strcat b3 ",".toList) auth_string else b3
  strcat b4 ";".toList

/-- Source `store_setting` for attribute number `item_idx`, written with the
`count` bytes `buf`: the value returned and the call log afterwards.  `none`
stands for the dereference of a NULL `settings[item_idx]`. -/
def store_setting (P : Platform) (log : List wmi_call) (thinkpad : thinkpad_wmi)
    (item_idx : Nat) (buf : List Char) (count : Nat) : Option (Int × List wmi_call) :=
  match thinkpad.settings item_idx with
  | none => none
  | some item =>
    if !P.alloc_ok log then some (-ENOMEM, log)
    else
      let buffer := store_setting_buffer item thinkpad.auth_string buf count
      let r1 := thinkpad_wmi_set_bios_settings P log buffer
      if r1.1 ≠ 0 then some (r1.1, r1.2)
      else
        let r2 := thinkpad_wmi_save_bios_settings P r1.2 thinkpad.auth_string
        if r2.1 ≠ 0 then
          let r3 := thinkpad_wmi_discard_bios_settings P r2.2 thinkpad.auth_string
          some (r2.1, r3.2)
        else some (to_int count, r2.2)

/-! ## Probing the machine -/

/-- The enumeration loop of `thinkpad_wmi_analyze`, `for (i = 0; i < 0xFF; ++i)`,
entered at `i`: the final `i`, the call log and the `settings` array afterwards.
`fuel` bounds the number of iterations. -/
def analyze_loop (P : Platform) : Nat → Nat → List wmi_call → (Nat → Option CStr) →
    Nat × List wmi_call × (Nat → Option CStr)
  | 0, i, log, settings => (i, log, settings)
  | fuel + 1, i, log, settings =>
    if i < 0xFF then
      let r := thinkpad_wmi_bios_setting P log i none
      if ACPI_FAILURE (to_u32 r.1) then (i, r.2.2, settings)
      else
        match r.2.1 with
        | none => (i, r.2.2, settings)
        | some item =>
          if item = [] then (i, r.2.2, settings)
          else
            analyze_loop P fuel (i + 1) r.2.2
              (Function.update settings i (some (strchr_cut item ',')))
    else (i, log, settings)

/-- Source `thinkpad_wmi_analyze`: the device structure and the call log afterwards. -/
def thinkpad_wmi_analyze (P : Platform) (log : List wmi_call) (thinkpad : thinkpad_wmi) :
    thinkpad_wmi × List wmi_call :=
  let r := analyze_loop P 0xFF 0 log thinkpad.settings
  let t0 := { thinkpad with settings := r.2.2, settings_count := (r.1 : Int) }
  let t1 := if P.wmi_has_guid Guid.LENOVO_SET_BIOS_SETTINGS_GUID &&
      P.wmi_has_guid Guid.LENOVO_SAVE_BIOS_SETTINGS_GUID then
      { t0 with can_set_bios_settings := true } else t0
  let t2 := if P.wmi_has_guid Guid.LENOVO_DISCARD_BIOS_SETTINGS_GUID then
      { t1 with can_discard_bios_settings := true } else t1
  let t3 := if P.wmi_has_guid Guid.LENOVO_LOAD_DEFAULT_SETTINGS_GUID then
      { t2 with can_load_default_settings := true } else t2
  let t4 := if P.wmi_has_guid Guid.LENOVO_GET_BIOS_SELECTIONS_GUID then
      { t3 with can_get_bios_selections := true } else t3
  let t5 := if P.wmi_has_guid Guid.LENOVO_SET_BIOS_PASSWORD_GUID then
      { t4 with can_set_bios_password := true } else t4
  let t6 := if P.wmi_has_guid Guid.LENOVO_BIOS_PASSWORD_SETTINGS_GUID then
      { t5 with can_get_password_settings := true } else t5
  (t6, r.2.1)

/-- The call log when the enumeration loop, started with the log `log`, reaches index
`i`: the queries of the indices below `i` have been made, in order. -/
def enum_log (log : List wmi_call) (i : Nat) : List wmi_call :=
  log ++ (List.range i).map (fun j => wmi_call.query Guid.LENOVO_BIOS_SETTING_GUID j)

/-- The outcome of the enumerate-setting query of index `i` within the enumeration
loop: `some item` when `thinkpad_wmi_bios_setting` succeeds with the non-empty string
`item`, `none` when it fails or yields no string or an empty one. -/
def enum_item (P : Platform) (log : List wmi_call) (i : Nat) : Option CStr :=
  let r := thinkpad_wmi_bios_setting P (enum_log log i) i none
  if ACPI_FAILURE (to_u32 r.1) then none
  else
    match r.2.1 with
    | none => none
    | some item => if item = [] then none else some item

/-! ## Reading a setting, loading defaults, changing a password -/

/-- Source `thinkpad_wmi_get_bios_selections`: result, `*value` afterwards, call log
afterwards. -/
def thinkpad_wmi_get_bios_selections (P : Platform) (log : List wmi_call) (item : CStr)
    (value : Option CStr) : Int × Option CStr × List wmi_call :=
  let call := wmi_call.method Guid.LENOVO_GET_BIOS_SELECTIONS_GUID item
  let output := P.firmware log call
  let log1 := log ++ [call]
  if ACPI_FAILURE output.status then (- EIO, value, log1)
  else
    let r := thinkpad_wmi_extract_output_string (P.alloc_ok log1) output value
    (r.1, r.2, log1)

/-- Source `thinkpad_wmi_load_default`. -/
def thinkpad_wmi_load_default (P : Platform) (log : List wmi_call) (password : CStr) :
    Int × List wmi_call :=
  thinkpad_wmi_simple_call P log Guid.LENOVO_LOAD_DEFAULT_SETTINGS_GUID password

/-- Source `thinkpad_wmi_set_bios_password`. -/
def thinkpad_wmi_set_bios_password (P : Platform) (log : List wmi_call) (settings : CStr) :
    Int × List wmi_call :=
  thinkpad_wmi_simple_call P log Guid.LENOVO_SET_BIOS_PASSWORD_GUID settings

/-- The end of `show_setting`, from `value = strchr(settings, ',')` on, entered with the
current `ret`: the value returned and the text left in `buf`.  `sprintf(buf, "%s\n", s)`
leaves `s` and a newline and counts their characters. -/
def show_setting_output (ret : Int) (settings : CStr) (choices : Option CStr) (buf : CStr) :
    Int × CStr :=
  match strchr_after settings ',' with
  | none => (if ret ≠ 0 then ret else 0, buf)
  | some value =>
    let buf1 := value ++ "\n".toList
    let count1 := value.length + 1
    match choices with
    | none => (if ret ≠ 0 then ret else (count1 : Int), buf1)
    | some c =>
      (if ret ≠ 0 then ret else ((count1 + (c.length + 1) : Nat) : Int),
        buf1 ++ (c ++ "\n".toList))

/-- Source `show_setting` for attribute number `item`: the value returned, the text in
`buf` afterwards and the call log afterwards.  `none` stands for the dereference of a
NULL `settings[item]` in `thinkpad_wmi_get_bios_selections`. -/
def show_setting (P : Platform) (log : List wmi_call) (thinkpad : thinkpad_wmi) (item : Nat)
    (buf : CStr) : Option (Int × CStr × List wmi_call) :=
  let name := thinkpad.settings item
  let r1 := thinkpad_wmi_bios_setting P log item none
  if r1.1 ≠ 0 then some (r1.1, buf, r1.2.2)
  else
    match r1.2.1 with
    | none => some (- EIO, buf, r1.2.2)
    | some settings =>
      if thinkpad.can_get_bios_selections then
        match name with
        | none => none
        | some nm =>
          let r2 := thinkpad_wmi_get_bios_selections P r1.2.2 nm none
          if r2.1 ≠ 0 then some (r2.1, buf, r2.2.2)
          else
            match r2.2.1 with
            | none => some (- EIO, buf, r2.2.2)
            | some choices =>
              if choices = [] then some (- EIO, buf, r2.2.2)
              else
                let out := show_setting_output r2.1 settings (some choices) buf
                some (out.1, out.2, r2.2.2)
      else
        let out := show_setting_output r1.1 settings none buf
        some (out.1, out.2, r1.2.2)

/-- Source `store_load_default`: the written bytes are not looked at. -/
def store_load_default (P : Platform) (log : List wmi_call) (thinkpad : thinkpad_wmi)
    (_buf : List Char) (_count : Nat) : Int × List wmi_call :=
  thinkpad_wmi_load_default P log thinkpad.auth_string

/-- The request string that `store_password_change` assembles in `buffer`. -/
def store_password_change_buffer (thinkpad : thinkpad_wmi) (buf : List Char) (count : Nat) :
    CStr :=
  let b0 := strcpy [] thinkpad.password_type
  let b1 := if thinkpad.password ≠ [] then
      strcat (strcat b0 ",".toList) thinkpad.password else b0
  let b2 := strcat b1 ",".toList
  let b3 := strncat b2 buf count
  let b4 := if count ≠ 0 then (strim b3).1 else b3
  let b5 := if thinkpad.password_encoding ≠ [] then
      strcat (strcat b4 ",".toList) thinkpad.password_encoding else b4
  let b6 := if thinkpad.password_kbdlang ≠ [] then
      strcat (strcat b5 ",".toList) thinkpad.password_kbdlang else b5
  strcat b6 ";".toList

/-- Source `store_password_change`, written with the `count` bytes `buf`: the value
returned and the call log afterwards. -/
def store_password_change (capable : Bool) (P : Platform) (log : List wmi_call)
    (thinkpad : thinkpad_wmi) (buf : List Char) (count : Nat) : Int × List wmi_call :=
  if !capable then (-EPERM, log)
  else if !P.alloc_ok log then (-ENOMEM, log)
  else
    let buffer := store_password_change_buffer thinkpad buf count
    let r := thinkpad_wmi_set_bios_password P log buffer
    if r.1 ≠ 0 then (r.1, r.2)
    else ((count : Int), r.2)

/-! ## Concrete stubs used to evaluate the driver -/

/-- The firmware answer that carries the status string `s`. -/
def status_reply (s : String) : wmi_output :=
  { status := 0, pointer := some (acpi_object.string (some s.toList)) }

/-- A platform whose firmware answers "Success" to every call, has every GUID and
never runs out of memory. -/
def stub_success : Platform :=
  { wmi_has_guid := fun _ => true
    firmware := fun _ _ => status_reply "Success"
    alloc_ok := fun _ => true }

/-- A device whose attribute 0 is "WakeOnLAN" and whose token is `auth`. -/
def wake_on_lan_device (auth : String) : thinkpad_wmi :=
  { thinkpad_wmi_zero with
    settings := fun i => if i = 0 then some "WakeOnLAN".toList else none
    auth_string := auth.toList }

/-- A platform whose firmware gives the same answer `reply` to every call. -/
def stub_reply (reply : wmi_output) : Platform :=
  { wmi_has_guid := fun _ => true
    firmware := fun _ _ => reply
    alloc_ok := fun _ => true }

/-- A platform whose firmware accepts set-settings ("Success"), refuses save-settings
with "Access Denied" and answers `discard` to discard-settings. -/
def stub_commit_fails (discard : wmi_output) : Platform :=
  { wmi_has_guid := fun _ => true
    firmware := fun _ c =>
      match c with
      | wmi_call.method Guid.LENOVO_SAVE_BIOS_SETTINGS_GUID _ => status_reply "Access Denied"
      | wmi_call.method Guid.LENOVO_DISCARD_BIOS_SETTINGS_GUID _ => discard
      | _ => status_reply "Success"
    alloc_ok := fun _ => true }

/-- An ACPI failure (`AE_ERROR`) without output. -/
def transport_failure : wmi_output := { status := 1, pointer := none }

/-- A platform that has only the set-settings and the discard-settings GUID. -/
def stub_guids_set_discard : Platform :=
  { wmi_has_guid := fun g =>
      g == Guid.LENOVO_SET_BIOS_SETTINGS_GUID || g == Guid.LENOVO_DISCARD_BIOS_SETTINGS_GUID
    firmware := fun _ _ => status_reply "Success"
    alloc_ok := fun _ => true }

/-- The firmware answer that carries the byte buffer `bytes`. -/
def buffer_reply (bytes : List Byte) : wmi_output :=
  { status := 0, pointer := some (acpi_object.buffer (some bytes)) }

/-- A 24-byte password settings buffer: the words 1, 2, 8, 64, 0x101 and 0xFFFFFFFF. -/
def sample_pcfg_bytes : List Byte :=
  [1, 0, 0, 0, 2, 0, 0, 0, 8, 0, 0, 0, 64, 0, 0, 0, 1, 1, 0, 0, 255, 255, 255, 255]

/-- A platform whose firmware lists the settings "WakeOnLAN,Enable",
"USBBIOSSupport,Disable" and "BootOrder" and then an empty string, followed by one
more entry that the enumeration must not reach. -/
def stub_three_settings : Platform :=
  { wmi_has_guid := fun _ => true
    firmware := fun _ c =>
      match c with
      | wmi_call.query Guid.LENOVO_BIOS_SETTING_GUID 0 => status_reply "WakeOnLAN,Enable"
      | wmi_call.query Guid.LENOVO_BIOS_SETTING_GUID 1 =>
        status_reply "USBBIOSSupport,Disable"
      | wmi_call.query Guid.LENOVO_BIOS_SETTING_GUID 2 => status_reply "BootOrder"
      | wmi_call.query Guid.LENOVO_BIOS_SETTING_GUID 3 => status_reply ""
      | wmi_call.query Guid.LENOVO_BIOS_SETTING_GUID 4 => status_reply "Hidden,1"
      | _ => transport_failure
    alloc_ok := fun _ => true }

/-- A platform whose firmware answers the enumerate-setting query of index 0 with
`reply` and every other call with "Success". -/
def stub_setting_reply (reply : String) : Platform :=
  { wmi_has_guid := fun _ => true
    firmware := fun _ c =>
      match c with
      | wmi_call.query Guid.LENOVO_BIOS_SETTING_GUID 0 => status_reply reply
      | _ => status_reply "Success"
    alloc_ok := fun _ => true }

/-- A device with the power-on password type selected and every authentication field
filled in: current password "oldpop", encoding "ascii", keyboard layout "us". -/
def pop_device : thinkpad_wmi :=
  { thinkpad_wmi_zero with
    password_type := "pop".toList
    password := "oldpop".toList
    password_encoding := "ascii".toList
    password_kbdlang := "us".toList
    auth_string := "oldpop,ascii,us".toList }

/-! ## Theorems -/

theorem strcmp_eq_zero_iff (a b : CStr) : strcmp a b = 0 ↔ a = b := by
  induction a generalizing b with
  | nil => cases b <;> simp [strcmp]
  | cons x xs ih =>
    cases b with
    | nil => simp [strcmp]
    | cons y ys =>
      by_cases hxy : x = y
      · subst hxy
        simp [strcmp, ih]
      · have : (if x.toNat < y.toNat then (-1 : Int) else 1) ≠ 0 := by
          split <;> decide
        simp [strcmp, hxy, this]

/-- C1: `thinkpad_wmi_errstr_to_err` sends the exact strings "Success", "Not Supported",
"Invalid", "Access Denied" and "System Busy" to `THINKPAD_WMI_SUCCESS` (0),
`THINKPAD_WMI_NOT_SUPPORTED` (-ENODEV), `THINKPAD_WMI_INVALID` (-EINVAL),
`THINKPAD_WMI_ACCESS_DENIED` (-EPERM) and `THINKPAD_WMI_SYSTEM_BUSY` (-EBUSY), and every
other string, the case variant "success" and the empty string among them, to -EINVAL. -/
theorem errstr_to_err_exact :
    (thinkpad_wmi_errstr_to_err "Success".toList = THINKPAD_WMI_SUCCESS ∧
      THINKPAD_WMI_SUCCESS = 0) ∧
    (thinkpad_wmi_errstr_to_err "Not Supported".toList = THINKPAD_WMI_NOT_SUPPORTED ∧
      THINKPAD_WMI_NOT_SUPPORTED = -ENODEV) ∧
    (thinkpad_wmi_errstr_to_err "Invalid".toList = THINKPAD_WMI_INVALID ∧
      THINKPAD_WMI_INVALID = -EINVAL) ∧
    (thinkpad_wmi_errstr_to_err "Access Denied".toList = THINKPAD_WMI_ACCESS_DENIED ∧
      THINKPAD_WMI_ACCESS_DENIED = -EPERM) ∧
    (thinkpad_wmi_errstr_to_err "System Busy".toList = THINKPAD_WMI_SYSTEM_BUSY ∧
      THINKPAD_WMI_SYSTEM_BUSY = -EBUSY) ∧
    (∀ s : CStr, s ≠ "Success".toList → s ≠ "Not Supported".toList → s ≠ "Invalid".toList →
      s ≠ "Access Denied".toList → s ≠ "System Busy".toList →
      thinkpad_wmi_errstr_to_err s = -EINVAL) ∧
    thinkpad_wmi_errstr_to_err "success".toList = -EINVAL ∧
    thinkpad_wmi_errstr_to_err "".toList = -EINVAL := by
  refine ⟨⟨by decide, rfl⟩, ⟨by decide, rfl⟩, ⟨by decide, rfl⟩, ⟨by decide, rfl⟩,
    ⟨by decide, rfl⟩, ?_, by decide, by decide⟩
  intro s h1 h2 h3 h4 h5
  unfold thinkpad_wmi_errstr_to_err
  simp only [strcmp_eq_zero_iff, h1, h2, h3, h4, h5, if_false]

/-! ### Requests of `store_setting` -/

theorem cstr_eq_self (v : List Char) (h : ∀ c ∈ v, c ≠ NUL) : cstr v = v := by
  unfold cstr
  rw [List.takeWhile_eq_self_iff]
  intro c hc
  simpa using h c hc

theorem rdropWhile_isspace_append (a v : CStr) (hv : v ≠ [])
    (h : ∀ c ∈ v.getLast?, isspace c = false) :
    (a ++ v).rdropWhile isspace = a ++ v := by
  rw [List.rdropWhile_eq_self_iff]
  intro hl
  rw [List.getLast_append_of_ne_nil hv]
  have := h (v.getLast hv) (by simp [List.getLast?_eq_getLast _ hv])
  simp [this]

theorem store_setting_buffer_eq (item auth value : CStr) (hnul : ∀ c ∈ value, c ≠ NUL)
    (htrail : ∀ c ∈ value.getLast?, isspace c = false) :
    store_setting_buffer item auth value value.length =
      item ++ ",".toList ++ value ++ (if auth ≠ [] then ",".toList ++ auth else []) ++
        ";".toList := by
  unfold store_setting_buffer strncat strim strcat strcpy
  rw [cstr_eq_self value hnul, List.take_length]
  by_cases hv : value = []
  · subst hv
    by_cases ha : auth = [] <;> simp [ha]
  · have hlen : value.length ≠ 0 := by simpa using hv
    have hr := rdropWhile_isspace_append (item ++ ",".toList) value hv htrail
    simp only [hlen, ne_eq, not_false_eq_true, if_true, hr]
    by_cases ha : auth = [] <;> simp [ha]

theorem simple_call_log (P : Platform) (log : List wmi_call) (guid : Guid) (arg : CStr) :
    (thinkpad_wmi_simple_call P log guid arg).2 = log ++ [wmi_call.method guid arg] := by
  unfold thinkpad_wmi_simple_call
  by_cases h : ACPI_FAILURE (P.firmware log (wmi_call.method guid arg)).status = true <;>
    simp [h]

/-- The three requests of `store_setting`: set-settings with the assembled buffer, then
save-settings and discard-settings with the token. -/
theorem store_setting_unfold (P : Platform) (log : List wmi_call) (t : thinkpad_wmi)
    (idx : Nat) (item : CStr) (buf : List Char) (count : Nat)
    (hitem : t.settings idx = some item) (halloc : P.alloc_ok log = true) :
    store_setting P log t idx buf count =
      some (
        if (thinkpad_wmi_set_bios_settings P log
            (store_setting_buffer item t.auth_string buf count)).1 ≠ 0 then
          ((thinkpad_wmi_set_bios_settings P log
              (store_setting_buffer item t.auth_string buf count)).1,
            log ++ [wmi_call.method Guid.LENOVO_SET_BIOS_SETTINGS_GUID
              (store_setting_buffer item t.auth_string buf count)])
        else if (thinkpad_wmi_save_bios_settings P
            (log ++ [wmi_call.method Guid.LENOVO_SET_BIOS_SETTINGS_GUID
              (store_setting_buffer item t.auth_string buf count)]) t.auth_string).1 ≠ 0 then
          ((thinkpad_wmi_save_bios_settings P
              (log ++ [wmi_call.method Guid.LENOVO_SET_BIOS_SETTINGS_GUID
                (store_setting_buffer item t.auth_string buf count)]) t.auth_string).1,
            log ++ [wmi_call.method Guid.LENOVO_SET_BIOS_SETTINGS_GUID
                (store_setting_buffer item t.auth_string buf count),
              wmi_call.method Guid.LENOVO_SAVE_BIOS_SETTINGS_GUID t.auth_string,
              wmi_call.method Guid.LENOVO_DISCARD_BIOS_SETTINGS_GUID t.auth_string])
        else
          (to_int count,
            log ++ [wmi_call.method Guid.LENOVO_SET_BIOS_SETTINGS_GUID
                (store_setting_buffer item t.auth_string buf count),
              wmi_call.method Guid.LENOVO_SAVE_BIOS_SETTINGS_GUID t.auth_string])) := by
  unfold store_setting
  simp only [hitem, halloc, Bool.not_true, Bool.false_eq_true, if_false]
  have e1 : (thinkpad_wmi_set_bios_settings P log
      (store_setting_buffer item t.auth_string buf count)).2 =
      log ++ [wmi_call.method Guid.LENOVO_SET_BIOS_SETTINGS_GUID
        (store_setting_buffer item t.auth_string buf count)] := simple_call_log _ _ _ _
  have e2 : ∀ l, (thinkpad_wmi_save_bios_settings P l t.auth_string).2 =
      l ++ [wmi_call.method Guid.LENOVO_SAVE_BIOS_SETTINGS_GUID t.auth_string] :=
    fun l => simple_call_log _ _ _ _
  have e3 : ∀ l, (thinkpad_wmi_discard_bios_settings P l t.auth_string).2 =
      l ++ [wmi_call.method Guid.LENOVO_DISCARD_BIOS_SETTINGS_GUID t.auth_string] :=
    fun l => simple_call_log _ _ _ _
  rw [e1]
  simp only [e2, e3, List.append_assoc, List.singleton_append]
  split
  · rfl
  · split <;> rfl

/-- C2: for an attribute named `item`, a written value that is a C string (no NUL
inside) without trailing white space (a fortiori one with neither leading nor trailing
white space) and any token, the first firmware call of `store_setting` is the
set-settings method with the request `item,value` followed by `,token` when the token is
non-empty, and closed by `;`. -/
theorem store_setting_request (P : Platform) (log : List wmi_call) (t : thinkpad_wmi)
    (idx : Nat) (item value : CStr) (hitem : t.settings idx = some item)
    (halloc : P.alloc_ok log = true) (hnul : ∀ c ∈ value, c ≠ NUL)
    (htrail : ∀ c ∈ value.getLast?, isspace c = false) :
    ∃ ret rest, store_setting P log t idx value value.length =
      some (ret, log ++ wmi_call.method Guid.LENOVO_SET_BIOS_SETTINGS_GUID
        (item ++ ",".toList ++ value ++
          (if t.auth_string ≠ [] then ",".toList ++ t.auth_string else []) ++ ";".toList)
        :: rest) := by
  rw [store_setting_unfold P log t idx item value value.length hitem halloc,
    store_setting_buffer_eq item t.auth_string value hnul htrail]
  generalize item ++ ",".toList ++ value ++
    (if t.auth_string ≠ [] then ",".toList ++ t.auth_string else []) ++ ";".toList = B
  by_cases h1 : (thinkpad_wmi_set_bios_settings P log B).1 = 0
  · by_cases h2 : (thinkpad_wmi_save_bios_settings P
        (log ++ [wmi_call.method Guid.LENOVO_SET_BIOS_SETTINGS_GUID B]) t.auth_string).1 = 0
    · exact ⟨_, _, by simp only [h1, h2, ne_eq, not_true_eq_false, if_false]; rfl⟩
    · exact ⟨_, _, by simp only [h1, h2, ne_eq, not_true_eq_false, not_false_eq_true,
        if_false, if_true]; rfl⟩
  · exact ⟨_, [], by simp only [h1, ne_eq, not_false_eq_true, if_true]; rfl⟩

/-- Witness of C2: item "WakeOnLAN" and value "Enable" give the request
"WakeOnLAN,Enable;" with the empty token and "WakeOnLAN,Enable,pw,ascii,us;" with the
token "pw,ascii,us". -/
theorem store_setting_request_witness :
    (∃ ret rest, store_setting stub_success [] (wake_on_lan_device "") 0
        "Enable".toList 6 =
      some (ret, wmi_call.method Guid.LENOVO_SET_BIOS_SETTINGS_GUID
        "WakeOnLAN,Enable;".toList :: rest)) ∧
    (∃ ret rest, store_setting stub_success [] (wake_on_lan_device "pw,ascii,us") 0
        "Enable".toList 6 =
      some (ret, wmi_call.method Guid.LENOVO_SET_BIOS_SETTINGS_GUID
        "WakeOnLAN,Enable,pw,ascii,us;".toList :: rest)) :=
  ⟨store_setting_request stub_success [] (wake_on_lan_device "") 0
      "WakeOnLAN".toList "Enable".toList rfl rfl (by decide) (by decide),
    store_setting_request stub_success [] (wake_on_lan_device "pw,ascii,us") 0
      "WakeOnLAN".toList "Enable".toList rfl rfl (by decide) (by decide)⟩

/-! ### The set, save, discard sequence of `store_setting` -/

theorem simple_call_fst (P : Platform) (log : List wmi_call) (guid : Guid) (arg : CStr) :
    (thinkpad_wmi_simple_call P log guid arg).1 =
      if ACPI_FAILURE (P.firmware log (wmi_call.method guid arg)).status then - EIO
      else thinkpad_wmi_extract_error (P.firmware log (wmi_call.method guid arg)) := by
  unfold thinkpad_wmi_simple_call
  by_cases h : ACPI_FAILURE (P.firmware log (wmi_call.method guid arg)).status = true <;>
    simp [h]

theorem simple_call_congr (P Q : Platform) (log : List wmi_call) (guid : Guid) (arg : CStr)
    (h : P.firmware log (wmi_call.method guid arg) = Q.firmware log (wmi_call.method guid arg)) :
    (thinkpad_wmi_simple_call P log guid arg).1 = (thinkpad_wmi_simple_call Q log guid arg).1 := by
  rw [simple_call_fst, simple_call_fst, h]

theorem errstr_to_err_eq_zero_iff (s : CStr) :
    thinkpad_wmi_errstr_to_err s = 0 ↔ s = "Success".toList := by
  unfold thinkpad_wmi_errstr_to_err
  simp only [strcmp_eq_zero_iff]
  constructor
  · intro h
    by_contra hne
    rw [if_neg hne] at h
    repeat' split at h
    all_goals revert h; decide
  · intro h
    rw [if_pos h]
    rfl

/-- A method call returns 0 exactly when the firmware call succeeds and hands back the
string "Success"; a transport failure, a malformed answer and every other status
string give a non-zero result. -/
theorem simple_call_eq_zero_iff (P : Platform) (log : List wmi_call) (guid : Guid)
    (arg : CStr) :
    (thinkpad_wmi_simple_call P log guid arg).1 = 0 ↔
      P.firmware log (wmi_call.method guid arg) =
        { status := 0, pointer := some (acpi_object.string (some "Success".toList)) } := by
  have hneg5 : (- EIO) ≠ 0 := by decide
  rw [simple_call_fst]
  rcases P.firmware log (wmi_call.method guid arg) with ⟨st, ptr⟩
  by_cases hst : st = 0
  · subst hst
    simp only [ACPI_FAILURE, bne_self_eq_false, Bool.false_eq_true, if_false,
      thinkpad_wmi_extract_error]
    rcases ptr with _ | (_ | s) | _ | _
    · simp [hneg5]
    · simp [hneg5]
    · simp [errstr_to_err_eq_zero_iff]
    · simp [hneg5]
    · simp [hneg5]
  · have : ACPI_FAILURE st = true := by simp [ACPI_FAILURE, hst]
    simp [this, hneg5, hst]

/-- C5: when the set-settings call of a setting write returns a non-zero result (any
firmware status but "Success", or a transport failure), `store_setting` returns that
result and the calls it made are the set-settings call alone: no save and no discard. -/
theorem store_setting_stage_rejected (P : Platform) (log : List wmi_call) (t : thinkpad_wmi)
    (idx : Nat) (item : CStr) (buf : List Char) (count : Nat)
    (hitem : t.settings idx = some item) (halloc : P.alloc_ok log = true)
    (hset : (thinkpad_wmi_set_bios_settings P log
      (store_setting_buffer item t.auth_string buf count)).1 ≠ 0) :
    store_setting P log t idx buf count =
      some ((thinkpad_wmi_set_bios_settings P log
          (store_setting_buffer item t.auth_string buf count)).1,
        log ++ [wmi_call.method Guid.LENOVO_SET_BIOS_SETTINGS_GUID
          (store_setting_buffer item t.auth_string buf count)]) := by
  rw [store_setting_unfold P log t idx item buf count hitem halloc, if_pos hset]

/-- Witness of C5: the firmware answers "Invalid" to the set-settings request; the write
returns -EINVAL after that single call. -/
theorem store_setting_stage_rejected_witness :
    store_setting (stub_reply (status_reply "Invalid")) [] (wake_on_lan_device "pw") 0
        "Enable\n".toList 7 =
      some (-EINVAL,
        [wmi_call.method Guid.LENOVO_SET_BIOS_SETTINGS_GUID "WakeOnLAN,Enable,pw;".toList]) :=
  store_setting_stage_rejected (stub_reply (status_reply "Invalid")) []
    (wake_on_lan_device "pw") 0 "WakeOnLAN".toList "Enable\n".toList 7 rfl rfl (by decide)

/-- C6: when the set-settings call succeeds and the save-settings call returns the
non-zero error `E`, `store_setting` makes exactly three calls, set, save and then one
discard that carries the same token as the save, and returns `E` whatever the discard
answers. -/
theorem store_setting_commit_failed (P : Platform) (log : List wmi_call) (t : thinkpad_wmi)
    (idx : Nat) (item : CStr) (buf : List Char) (count : Nat) (E : Int)
    (hitem : t.settings idx = some item) (halloc : P.alloc_ok log = true)
    (hset : (thinkpad_wmi_set_bios_settings P log
      (store_setting_buffer item t.auth_string buf count)).1 = 0)
    (hsave : (thinkpad_wmi_save_bios_settings P
      (log ++ [wmi_call.method Guid.LENOVO_SET_BIOS_SETTINGS_GUID
        (store_setting_buffer item t.auth_string buf count)]) t.auth_string).1 = E)
    (hE : E ≠ 0) :
    store_setting P log t idx buf count =
      some (E,
        log ++ [wmi_call.method Guid.LENOVO_SET_BIOS_SETTINGS_GUID
            (store_setting_buffer item t.auth_string buf count),
          wmi_call.method Guid.LENOVO_SAVE_BIOS_SETTINGS_GUID t.auth_string,
          wmi_call.method Guid.LENOVO_DISCARD_BIOS_SETTINGS_GUID t.auth_string]) := by
  rw [store_setting_unfold P log t idx item buf count hitem halloc,
    if_neg (by rw [hset]; exact fun h => h rfl), hsave, if_pos hE]

/-- Witness of C6: set-settings succeeds, save-settings answers "Access Denied"; the
write returns -EPERM after set, save and one discard with the token of the save. -/
theorem store_setting_commit_failed_witness :
    store_setting (stub_commit_fails (status_reply "Success")) []
        (wake_on_lan_device "pw") 0 "Enable\n".toList 7 =
      some (-EPERM,
        [wmi_call.method Guid.LENOVO_SET_BIOS_SETTINGS_GUID "WakeOnLAN,Enable,pw;".toList,
          wmi_call.method Guid.LENOVO_SAVE_BIOS_SETTINGS_GUID "pw".toList,
          wmi_call.method Guid.LENOVO_DISCARD_BIOS_SETTINGS_GUID "pw".toList]) :=
  store_setting_commit_failed (stub_commit_fails (status_reply "Success")) []
    (wake_on_lan_device "pw") 0 "WakeOnLAN".toList "Enable\n".toList 7 (-EPERM) rfl rfl
    (by decide) (by decide) (by decide)

/-- Counterexample to C7: two runs with the same commit error "Access Denied", one whose
discard succeeds (result 0) and one whose discard fails in transport (result -EIO),
report the very same outcome, -EPERM after the same three calls. -/
theorem store_setting_discard_result_dropped :
    (thinkpad_wmi_discard_bios_settings (stub_commit_fails (status_reply "Success"))
        [wmi_call.method Guid.LENOVO_SET_BIOS_SETTINGS_GUID "WakeOnLAN,Enable,pw;".toList,
          wmi_call.method Guid.LENOVO_SAVE_BIOS_SETTINGS_GUID "pw".toList]
        "pw".toList).1 = 0 ∧
    (thinkpad_wmi_discard_bios_settings (stub_commit_fails transport_failure)
        [wmi_call.method Guid.LENOVO_SET_BIOS_SETTINGS_GUID "WakeOnLAN,Enable,pw;".toList,
          wmi_call.method Guid.LENOVO_SAVE_BIOS_SETTINGS_GUID "pw".toList]
        "pw".toList).1 = - EIO ∧
    store_setting (stub_commit_fails (status_reply "Success")) []
        (wake_on_lan_device "pw") 0 "Enable\n".toList 7 =
      some (-EPERM,
        [wmi_call.method Guid.LENOVO_SET_BIOS_SETTINGS_GUID "WakeOnLAN,Enable,pw;".toList,
          wmi_call.method Guid.LENOVO_SAVE_BIOS_SETTINGS_GUID "pw".toList,
          wmi_call.method Guid.LENOVO_DISCARD_BIOS_SETTINGS_GUID "pw".toList]) ∧
    store_setting (stub_commit_fails transport_failure) []
        (wake_on_lan_device "pw") 0 "Enable\n".toList 7 =
      some (-EPERM,
        [wmi_call.method Guid.LENOVO_SET_BIOS_SETTINGS_GUID "WakeOnLAN,Enable,pw;".toList,
          wmi_call.method Guid.LENOVO_SAVE_BIOS_SETTINGS_GUID "pw".toList,
          wmi_call.method Guid.LENOVO_DISCARD_BIOS_SETTINGS_GUID "pw".toList]) ∧
    ¬ (store_setting (stub_commit_fails transport_failure) []
        (wake_on_lan_device "pw") 0 "Enable\n".toList 7 ≠
      store_setting (stub_commit_fails (status_reply "Success")) []
        (wake_on_lan_device "pw") 0 "Enable\n".toList 7) := by
  refine ⟨by decide, by decide, by decide, by decide, ?_⟩
  intro h
  exact h (by decide)

/-- C7, amended: the outcome of `store_setting` is fixed by the answers to the
set-settings and the save-settings call; two platforms that agree on these two answers
yield the same outcome whatever they answer to the discard, so the result of the
automatic discard is not reported. -/
theorem store_setting_ignores_discard (P Q : Platform) (log : List wmi_call)
    (t : thinkpad_wmi) (idx : Nat) (item : CStr) (buf : List Char) (count : Nat)
    (hitem : t.settings idx = some item)
    (hP : P.alloc_ok log = true) (hQ : Q.alloc_ok log = true)
    (hset : P.firmware log (wmi_call.method Guid.LENOVO_SET_BIOS_SETTINGS_GUID
        (store_setting_buffer item t.auth_string buf count)) =
      Q.firmware log (wmi_call.method Guid.LENOVO_SET_BIOS_SETTINGS_GUID
        (store_setting_buffer item t.auth_string buf count)))
    (hsave : P.firmware (log ++ [wmi_call.method Guid.LENOVO_SET_BIOS_SETTINGS_GUID
          (store_setting_buffer item t.auth_string buf count)])
        (wmi_call.method Guid.LENOVO_SAVE_BIOS_SETTINGS_GUID t.auth_string) =
      Q.firmware (log ++ [wmi_call.method Guid.LENOVO_SET_BIOS_SETTINGS_GUID
          (store_setting_buffer item t.auth_string buf count)])
        (wmi_call.method Guid.LENOVO_SAVE_BIOS_SETTINGS_GUID t.auth_string)) :
    store_setting P log t idx buf count = store_setting Q log t idx buf count := by
  rw [store_setting_unfold P log t idx item buf count hitem hP,
    store_setting_unfold Q log t idx item buf count hitem hQ]
  have e1 : (thinkpad_wmi_set_bios_settings P log
      (store_setting_buffer item t.auth_string buf count)).1 =
      (thinkpad_wmi_set_bios_settings Q log
        (store_setting_buffer item t.auth_string buf count)).1 :=
    simple_call_congr P Q log _ _ hset
  have e2 : (thinkpad_wmi_save_bios_settings P
      (log ++ [wmi_call.method Guid.LENOVO_SET_BIOS_SETTINGS_GUID
        (store_setting_buffer item t.auth_string buf count)]) t.auth_string).1 =
      (thinkpad_wmi_save_bios_settings Q
        (log ++ [wmi_call.method Guid.LENOVO_SET_BIOS_SETTINGS_GUID
          (store_setting_buffer item t.auth_string buf count)]) t.auth_string).1 :=
    simple_call_congr P Q _ _ _ hsave
  rw [e1, e2]

/-- Witness of the amended C7: a platform whose discard succeeds and one whose discard
fails in transport, alike on set and save, give the same outcome. -/
theorem store_setting_ignores_discard_witness :
    store_setting (stub_commit_fails (status_reply "Success")) []
        (wake_on_lan_device "pw") 0 "Enable\n".toList 7 =
      store_setting (stub_commit_fails (status_reply "System Busy")) []
        (wake_on_lan_device "pw") 0 "Enable\n".toList 7 :=
  store_setting_ignores_discard (stub_commit_fails (status_reply "Success"))
    (stub_commit_fails (status_reply "System Busy")) [] (wake_on_lan_device "pw") 0
    "WakeOnLAN".toList "Enable\n".toList 7 rfl rfl rfl rfl rfl

/-! ### The authentication string -/

/-- C3: with a non-empty password, `update_auth_string` sets the token to the password,
then "," and the encoding when the encoding is non-empty, then "," and the keyboard
layout when that is non-empty; the three source fields are left as they were. -/
theorem update_auth_string_nonempty (t : thinkpad_wmi) (h : t.password ≠ []) :
    (update_auth_string t).auth_string =
        t.password ++
          (if t.password_encoding ≠ [] then ",".toList ++ t.password_encoding else []) ++
          (if t.password_kbdlang ≠ [] then ",".toList ++ t.password_kbdlang else []) ∧
      (update_auth_string t).password = t.password ∧
      (update_auth_string t).password_encoding = t.password_encoding ∧
      (update_auth_string t).password_kbdlang = t.password_kbdlang := by
  unfold update_auth_string
  rw [if_neg h]
  refine ⟨?_, rfl, rfl, rfl⟩
  by_cases he : t.password_encoding = [] <;> by_cases hk : t.password_kbdlang = [] <;>
    simp [he, hk, strcpy, strcat]

/-- Witness of C3: password "p" alone gives "p", with encoding "ascii" it gives
"p,ascii", and with keyboard layout "us" as well it gives "p,ascii,us". -/
theorem update_auth_string_nonempty_witness :
    (update_auth_string { thinkpad_wmi_zero with password := "p".toList }).auth_string
        = "p".toList ∧
      (update_auth_string { thinkpad_wmi_zero with
          password := "p".toList, password_encoding := "ascii".toList }).auth_string
        = "p,ascii".toList ∧
      (update_auth_string { thinkpad_wmi_zero with
          password := "p".toList, password_encoding := "ascii".toList,
          password_kbdlang := "us".toList }).auth_string
        = "p,ascii,us".toList :=
  ⟨(update_auth_string_nonempty { thinkpad_wmi_zero with password := "p".toList }
      (by decide)).1,
    (update_auth_string_nonempty { thinkpad_wmi_zero with
      password := "p".toList, password_encoding := "ascii".toList } (by decide)).1,
    (update_auth_string_nonempty { thinkpad_wmi_zero with
      password := "p".toList, password_encoding := "ascii".toList,
      password_kbdlang := "us".toList } (by decide)).1⟩

theorem update_auth_string_idem (t : thinkpad_wmi) :
    update_auth_string (update_auth_string t) = update_auth_string t := by
  unfold update_auth_string
  by_cases hp : t.password = [] <;> simp [hp, strcpy]

theorem cstr_length_le (buf : List Char) : (cstr buf).length ≤ buf.length :=
  (List.takeWhile_sublist _).length_le

theorem strscpy_fits (dest : CStr) (buf : List Char) (size : Nat)
    (h1 : size ≤ INT_MAX) (hlen : buf.length < size) :
    strscpy dest (cstr buf) size = (((cstr buf).length : Int), cstr buf) := by
  unfold strscpy
  have hc := cstr_length_le buf
  rw [if_neg (by omega), if_pos (by omega)]

/-- A write through `store_auth` to one of the four attributes either leaves the device
as it was (rejected) or ends with `update_auth_string` (accepted): the `strscpy` error
exit is never taken. -/
theorem store_attr_cases (dst : auth_field) (capable : Bool) (t : thinkpad_wmi)
    (buf : List Char) :
    (store_attr dst capable t buf).2 = t ∨
      ∃ t2, (store_attr dst capable t buf).2 = update_auth_string t2 := by
  unfold store_attr store_auth
  cases capable
  · left; rfl
  · by_cases hc : buf.length > size_minus_one dst.sizeof
    · left; simp [hc]
    · right
      have hs : size_minus_one dst.sizeof = dst.sizeof - 1 ∧ dst.sizeof ≠ 0 ∧
          dst.sizeof ≤ INT_MAX := by
        cases dst <;> decide
      have hlt : buf.length < dst.sizeof := by omega
      simp only [Bool.not_true, Bool.false_eq_true, if_false, hc,
        strscpy_fits _ buf dst.sizeof hs.2.2 hlt]
      rw [if_neg (by omega)]
      exact ⟨_, rfl⟩

/-- The token is always the one derived from the stored fields. -/
theorem run_auth_writes_fixed (ws : List auth_write) (t : thinkpad_wmi)
    (h : update_auth_string t = t) :
    update_auth_string (run_auth_writes t ws) = run_auth_writes t ws := by
  induction ws generalizing t with
  | nil => exact h
  | cons w ws ih =>
    apply ih
    rcases store_attr_cases w.dst w.capable t w.buf with h1 | ⟨t2, h2⟩
    · rw [h1]; exact h
    · rw [h2]; exact update_auth_string_idem t2

/-- C4: in every state reached from the zeroed device by writes to the password,
password_encoding, password_kbdlang and password_type attributes (accepted or rejected),
an empty stored password means an empty token, whatever encoding and keyboard layout
are stored. -/
theorem auth_string_empty_of_password_empty (ws : List auth_write)
    (h : (run_auth_writes thinkpad_wmi_zero ws).password = []) :
    (run_auth_writes thinkpad_wmi_zero ws).auth_string = [] := by
  have hfix := run_auth_writes_fixed ws thinkpad_wmi_zero rfl
  rw [← hfix]
  unfold update_auth_string
  rw [if_pos h]

/-- Witness of C4: after password "pw", encoding "ascii", keyboard layout "us" and then
a password write of a lone newline, the password is empty, encoding "ascii" and layout
"us" are still stored, and the token is empty. -/
theorem auth_string_empty_of_password_empty_witness :
    (run_auth_writes thinkpad_wmi_zero
        [⟨auth_field.password, true, "pw\n".toList⟩,
          ⟨auth_field.password_encoding, true, "ascii\n".toList⟩,
          ⟨auth_field.password_kbdlang, true, "us\n".toList⟩,
          ⟨auth_field.password, true, "\n".toList⟩]).password_encoding = "ascii".toList ∧
    (run_auth_writes thinkpad_wmi_zero
        [⟨auth_field.password, true, "pw\n".toList⟩,
          ⟨auth_field.password_encoding, true, "ascii\n".toList⟩,
          ⟨auth_field.password_kbdlang, true, "us\n".toList⟩,
          ⟨auth_field.password, true, "\n".toList⟩]).password_kbdlang = "us".toList ∧
    (run_auth_writes thinkpad_wmi_zero
        [⟨auth_field.password, true, "pw\n".toList⟩,
          ⟨auth_field.password_encoding, true, "ascii\n".toList⟩,
          ⟨auth_field.password_kbdlang, true, "us\n".toList⟩,
          ⟨auth_field.password, true, "\n".toList⟩]).auth_string = [] :=
  ⟨by decide, by decide,
    auth_string_empty_of_password_empty
      [⟨auth_field.password, true, "pw\n".toList⟩,
        ⟨auth_field.password_encoding, true, "ascii\n".toList⟩,
        ⟨auth_field.password_kbdlang, true, "us\n".toList⟩,
        ⟨auth_field.password, true, "\n".toList⟩] (by decide)⟩

/-! ### Catalog discovery -/

theorem bios_setting_log (P : Platform) (log : List wmi_call) (item : Nat)
    (value : Option CStr) :
    (thinkpad_wmi_bios_setting P log item value).2.2 =
      log ++ [wmi_call.query Guid.LENOVO_BIOS_SETTING_GUID item] := by
  unfold thinkpad_wmi_bios_setting
  by_cases h : ACPI_FAILURE (P.firmware log
      (wmi_call.query Guid.LENOVO_BIOS_SETTING_GUID item)).status = true <;> simp [h]

theorem enum_log_succ (log : List wmi_call) (i : Nat) :
    enum_log log i ++ [wmi_call.query Guid.LENOVO_BIOS_SETTING_GUID i] =
      enum_log log (i + 1) := by
  simp [enum_log, List.range_succ]

/-- One turn of the enumeration loop, in terms of `enum_item`. -/
theorem analyze_loop_succ (P : Platform) (log : List wmi_call) (fuel i : Nat)
    (settings : Nat → Option CStr) (hi : i < 0xFF) :
    analyze_loop P (fuel + 1) i (enum_log log i) settings =
      match enum_item P log i with
      | none => (i, enum_log log (i + 1), settings)
      | some item =>
        analyze_loop P fuel (i + 1) (enum_log log (i + 1))
          (Function.update settings i (some (strchr_cut item ','))) := by
  rw [analyze_loop, if_pos hi]
  simp only [enum_item, bios_setting_log, enum_log_succ]
  by_cases hf : ACPI_FAILURE (to_u32
      (thinkpad_wmi_bios_setting P (enum_log log i) i none).1) = true
  · simp only [hf, if_true]
  · simp only [hf, Bool.false_eq_true, if_false]
    rcases (thinkpad_wmi_bios_setting P (enum_log log i) i none).2.1 with _ | item
    · rfl
    · by_cases he : item = []
      · simp only [he, if_true]
      · simp only [he, if_false]

/-- The enumeration loop entered at `i` with enough fuel: where it stops, which
queries it has made and what it has stored. -/
theorem analyze_loop_spec (P : Platform) (log : List wmi_call) (fuel : Nat) :
    ∀ (i : Nat) (settings : Nat → Option CStr), i + fuel = 0xFF →
      i ≤ (analyze_loop P fuel i (enum_log log i) settings).1 ∧
      (analyze_loop P fuel i (enum_log log i) settings).1 ≤ 0xFF ∧
      (∀ j, i ≤ j → j < (analyze_loop P fuel i (enum_log log i) settings).1 →
        ∃ item, enum_item P log j = some item ∧
          (analyze_loop P fuel i (enum_log log i) settings).2.2 j =
            some (strchr_cut item ',')) ∧
      ((analyze_loop P fuel i (enum_log log i) settings).1 < 0xFF →
        enum_item P log (analyze_loop P fuel i (enum_log log i) settings).1 = none) ∧
      (∀ j, (j < i ∨ (analyze_loop P fuel i (enum_log log i) settings).1 ≤ j) →
        (analyze_loop P fuel i (enum_log log i) settings).2.2 j = settings j) ∧
      (analyze_loop P fuel i (enum_log log i) settings).2.1 =
        enum_log log (min ((analyze_loop P fuel i (enum_log log i) settings).1 + 1) 0xFF) := by
  induction fuel with
  | zero =>
    intro i settings hi
    have hi2 : i = 0xFF := by omega
    subst hi2
    simp only [analyze_loop]
    refine ⟨le_refl _, le_refl _, ?_, ?_, ?_, ?_⟩
    · intro j h1 h2; omega
    · intro h; omega
    · intro j _; trivial
    · rfl
  | succ fuel ih =>
    intro i settings hi
    have hlt : i < 0xFF := by omega
    rw [analyze_loop_succ P log fuel i settings hlt]
    rcases hitem : enum_item P log i with _ | item
    · simp only
      refine ⟨le_refl _, le_of_lt hlt, ?_, ?_, ?_, ?_⟩
      · intro j h1 h2; omega
      · intro _; exact hitem
      · intro j _; trivial
      · rw [min_eq_left (by omega)]
    · simp only
      obtain ⟨h1, h2, h3, h4, h5, h6⟩ :=
        ih (i + 1) (Function.update settings i (some (strchr_cut item ','))) (by omega)
      refine ⟨by omega, h2, ?_, h4, ?_, h6⟩
      · intro j hj1 hj2
        by_cases hji : j = i
        · subst hji
          refine ⟨item, hitem, ?_⟩
          rw [h5 j (Or.inl (by omega))]
          simp
        · exact h3 j (by omega) hj2
      · intro j hj
        have hne : j ≠ i := by omega
        rw [h5 j (by omega)]
        simp [hne]

theorem analyze_fields (P : Platform) (log : List wmi_call) (t : thinkpad_wmi) :
    (thinkpad_wmi_analyze P log t).1.settings_count =
        ((analyze_loop P 0xFF 0 log t.settings).1 : Int) ∧
      (thinkpad_wmi_analyze P log t).1.settings = (analyze_loop P 0xFF 0 log t.settings).2.2 ∧
      (thinkpad_wmi_analyze P log t).2 = (analyze_loop P 0xFF 0 log t.settings).2.1 := by
  unfold thinkpad_wmi_analyze
  cases P.wmi_has_guid Guid.LENOVO_SET_BIOS_SETTINGS_GUID <;>
  cases P.wmi_has_guid Guid.LENOVO_SAVE_BIOS_SETTINGS_GUID <;>
  cases P.wmi_has_guid Guid.LENOVO_DISCARD_BIOS_SETTINGS_GUID <;>
  cases P.wmi_has_guid Guid.LENOVO_LOAD_DEFAULT_SETTINGS_GUID <;>
  cases P.wmi_has_guid Guid.LENOVO_GET_BIOS_SELECTIONS_GUID <;>
  cases P.wmi_has_guid Guid.LENOVO_SET_BIOS_PASSWORD_GUID <;>
  cases P.wmi_has_guid Guid.LENOVO_BIOS_PASSWORD_SETTINGS_GUID <;>
  exact ⟨rfl, rfl, rfl⟩

/-- The enumerate-setting query of index `i` is accepted with `item` exactly when the
firmware call succeeds, hands back the non-empty string `item`, and the copy of it can
be allocated; a transport failure, an answer that is no string, an allocation failure
and the empty string all stop the enumeration. -/
theorem enum_item_eq_some_iff (P : Platform) (log : List wmi_call) (i : Nat) (item : CStr) :
    enum_item P log i = some item ↔
      P.firmware (enum_log log i) (wmi_call.query Guid.LENOVO_BIOS_SETTING_GUID i) =
          { status := 0, pointer := some (acpi_object.string (some item)) } ∧
        P.alloc_ok (enum_log log (i + 1)) = true ∧ item ≠ [] := by
  have hneg5 : ACPI_FAILURE (to_u32 (- EIO)) = true := by decide
  have hNOMEM : ACPI_FAILURE (to_u32 (-ENOMEM)) = true := by decide
  have hZ : ACPI_FAILURE (to_u32 0) = false := by decide
  unfold enum_item thinkpad_wmi_bios_setting thinkpad_wmi_extract_output_string
  simp only [enum_log_succ]
  rcases P.firmware (enum_log log i) (wmi_call.query Guid.LENOVO_BIOS_SETTING_GUID i)
    with ⟨st, ptr⟩
  by_cases hst : st = 0
  · subst hst
    have h0 : ACPI_FAILURE 0 = false := by decide
    simp only [h0, Bool.false_eq_true, if_false]
    rcases ptr with _ | (_ | s) | _ | _
    · simp [hneg5]
    · simp [hneg5]
    · cases P.alloc_ok (enum_log log (i + 1))
      · simp [hNOMEM]
      · by_cases hs : s = []
        · subst hs
          simp only [if_true, hZ, Bool.false_eq_true, if_false]
          constructor
          · intro h; cases h
          · rintro ⟨h1, -, h3⟩
            simp only [wmi_output.mk.injEq, Option.some.injEq, acpi_object.string.injEq,
              true_and] at h1
            exact absurd h1.symm h3
        · simp only [if_true, hZ, Bool.false_eq_true, if_false, hs]
          constructor
          · intro h
            simp only [Option.some.injEq] at h
            subst h
            exact ⟨rfl, trivial, hs⟩
          · rintro ⟨h1, -, -⟩
            simp only [wmi_output.mk.injEq, Option.some.injEq, acpi_object.string.injEq,
              true_and] at h1
            rw [h1]
    · simp [hneg5]
    · simp [hneg5]
  · have hf : ACPI_FAILURE st = true := by simp [ACPI_FAILURE, hst]
    simp [hf, hneg5, hst]

/-- C8: `thinkpad_wmi_analyze` sets `settings_count` to the least index `k < 255` whose
enumerate-setting query fails or yields an empty string, and to 255 when there is none;
it queries the indices up to and including that `k` (never beyond 254) and nothing
else; for every `i` below the count `settings[i]` is the answer of index `i` cut at its
first comma, and the entries from the count on are left as they were. -/
theorem analyze_catalog (P : Platform) (log : List wmi_call) (t : thinkpad_wmi) :
    ∃ n : Nat,
      (thinkpad_wmi_analyze P log t).1.settings_count = (n : Int) ∧ n ≤ 255 ∧
      (∀ k, k < 255 → enum_item P log k = none →
        (∀ j, j < k → enum_item P log j ≠ none) → n = k) ∧
      ((∀ k, k < 255 → enum_item P log k ≠ none) → n = 255) ∧
      (n < 255 → enum_item P log n = none) ∧
      (∀ i, i < n → ∃ item, enum_item P log i = some item ∧
        (thinkpad_wmi_analyze P log t).1.settings i =
          some (item.takeWhile (fun c => c != ','))) ∧
      (∀ i, n ≤ i → (thinkpad_wmi_analyze P log t).1.settings i = t.settings i) ∧
      (thinkpad_wmi_analyze P log t).2 = enum_log log (min (n + 1) 255) := by
  obtain ⟨e1, e2, e3⟩ := analyze_fields P log t
  have hspec := analyze_loop_spec P log 0xFF 0 t.settings (by norm_num)
  have hlog : enum_log log 0 = log := by simp [enum_log]
  rw [hlog] at hspec
  obtain ⟨-, h2, h3, h4, h5, h6⟩ := hspec
  refine ⟨(analyze_loop P 0xFF 0 log t.settings).1, e1, h2, ?_, ?_, h4, ?_, ?_, ?_⟩
  · intro k hk hnone hbelow
    rcases Nat.lt_trichotomy (analyze_loop P 0xFF 0 log t.settings).1 k with hlt | heq | hgt
    · exact absurd (h4 (by omega)) (hbelow _ hlt)
    · exact heq
    · obtain ⟨item, hitem, -⟩ := h3 k (Nat.zero_le _) hgt
      rw [hnone] at hitem
      cases hitem
  · intro hall
    by_contra hne
    have hlt : (analyze_loop P 0xFF 0 log t.settings).1 < 255 := by omega
    exact hall _ hlt (h4 hlt)
  · intro i hi
    obtain ⟨item, hitem, hset⟩ := h3 i (Nat.zero_le _) hi
    exact ⟨item, hitem, by rw [e2, hset]; rfl⟩
  · intro i hi
    rw [e2]
    exact h5 i (Or.inr hi)
  · rw [e3, h6]

/-- The enumeration on a firmware that lists three settings and then an empty string:
the count is 3, the cached names are "WakeOnLAN", "USBBIOSSupport" and "BootOrder",
entry 3 stays NULL, and the queries made are those of the indices 0 to 3. -/
theorem analyze_catalog_example :
    (thinkpad_wmi_analyze stub_three_settings [] thinkpad_wmi_zero).1.settings_count = 3 ∧
    (thinkpad_wmi_analyze stub_three_settings [] thinkpad_wmi_zero).1.settings 0 =
      some "WakeOnLAN".toList ∧
    (thinkpad_wmi_analyze stub_three_settings [] thinkpad_wmi_zero).1.settings 1 =
      some "USBBIOSSupport".toList ∧
    (thinkpad_wmi_analyze stub_three_settings [] thinkpad_wmi_zero).1.settings 2 =
      some "BootOrder".toList ∧
    (thinkpad_wmi_analyze stub_three_settings [] thinkpad_wmi_zero).1.settings 3 = none ∧
    (thinkpad_wmi_analyze stub_three_settings [] thinkpad_wmi_zero).2 =
      [wmi_call.query Guid.LENOVO_BIOS_SETTING_GUID 0,
        wmi_call.query Guid.LENOVO_BIOS_SETTING_GUID 1,
        wmi_call.query Guid.LENOVO_BIOS_SETTING_GUID 2,
        wmi_call.query Guid.LENOVO_BIOS_SETTING_GUID 3] := by
  refine ⟨?_, ?_, ?_, ?_, ?_, ?_⟩ <;> decide

/-! ### Capabilities -/

/-- C9: after `thinkpad_wmi_analyze` on the zeroed device, `can_set_bios_settings` holds
exactly when both the set-settings and the save-settings GUID are present, and each of
the five other flags holds exactly when its own GUID (discard, load-defaults,
get-selections, set-password, password-settings) is present. -/
theorem analyze_capabilities (P : Platform) (log : List wmi_call) :
    ((thinkpad_wmi_analyze P log thinkpad_wmi_zero).1.can_set_bios_settings = true ↔
      P.wmi_has_guid Guid.LENOVO_SET_BIOS_SETTINGS_GUID = true ∧
        P.wmi_has_guid Guid.LENOVO_SAVE_BIOS_SETTINGS_GUID = true) ∧
    ((thinkpad_wmi_analyze P log thinkpad_wmi_zero).1.can_discard_bios_settings = true ↔
      P.wmi_has_guid Guid.LENOVO_DISCARD_BIOS_SETTINGS_GUID = true) ∧
    ((thinkpad_wmi_analyze P log thinkpad_wmi_zero).1.can_load_default_settings = true ↔
      P.wmi_has_guid Guid.LENOVO_LOAD_DEFAULT_SETTINGS_GUID = true) ∧
    ((thinkpad_wmi_analyze P log thinkpad_wmi_zero).1.can_get_bios_selections = true ↔
      P.wmi_has_guid Guid.LENOVO_GET_BIOS_SELECTIONS_GUID = true) ∧
    ((thinkpad_wmi_analyze P log thinkpad_wmi_zero).1.can_set_bios_password = true ↔
      P.wmi_has_guid Guid.LENOVO_SET_BIOS_PASSWORD_GUID = true) ∧
    ((thinkpad_wmi_analyze P log thinkpad_wmi_zero).1.can_get_password_settings = true ↔
      P.wmi_has_guid Guid.LENOVO_BIOS_PASSWORD_SETTINGS_GUID = true) := by
  unfold thinkpad_wmi_analyze thinkpad_wmi_zero
  cases P.wmi_has_guid Guid.LENOVO_SET_BIOS_SETTINGS_GUID <;>
  cases P.wmi_has_guid Guid.LENOVO_SAVE_BIOS_SETTINGS_GUID <;>
  cases P.wmi_has_guid Guid.LENOVO_DISCARD_BIOS_SETTINGS_GUID <;>
  cases P.wmi_has_guid Guid.LENOVO_LOAD_DEFAULT_SETTINGS_GUID <;>
  cases P.wmi_has_guid Guid.LENOVO_GET_BIOS_SELECTIONS_GUID <;>
  cases P.wmi_has_guid Guid.LENOVO_SET_BIOS_PASSWORD_GUID <;>
  cases P.wmi_has_guid Guid.LENOVO_BIOS_PASSWORD_SETTINGS_GUID <;>
  simp

/-- With the set-settings GUID present and the save-settings GUID missing,
`can_set_bios_settings` stays false while `can_discard_bios_settings` is set. -/
theorem analyze_capabilities_example :
    (thinkpad_wmi_analyze stub_guids_set_discard [] thinkpad_wmi_zero).1.can_set_bios_settings
        = false ∧
      (thinkpad_wmi_analyze stub_guids_set_discard [] thinkpad_wmi_zero).1.can_discard_bios_settings
        = true := by
  constructor <;> rfl

/-! ### Password settings -/

theorem bytes_of_u32_le32 (b0 b1 b2 b3 : Byte) :
    bytes_of_u32 (le32 b0 b1 b2 b3) = [b0, b1, b2, b3] := by
  have h0 := b0.isLt
  have h1 := b1.isLt
  have h2 := b2.isLt
  have h3 := b3.isLt
  simp only [bytes_of_u32, le32, List.cons.injEq, and_true]
  refine ⟨?_, ?_, ?_, ?_⟩ <;> apply Fin.ext <;> simp only [Fin.ofNat, Fin.val_mk] <;> omega

theorem le32_lt (b0 b1 b2 b3 : Byte) : le32 b0 b1 b2 b3 < 2 ^ 32 := by
  have h0 := b0.isLt
  have h1 := b1.isLt
  have h2 := b2.isLt
  have h3 := b3.isLt
  simp only [le32]
  omega

theorem length_24_cases (bytes : List Byte) (h : bytes.length = 24) :
    ∃ a0 a1 a2 a3 a4 a5 a6 a7 a8 a9 a10 a11 a12 a13 a14 a15 a16 a17 a18 a19 a20 a21 a22 a23 : Byte,
      bytes = [a0, a1, a2, a3, a4, a5, a6, a7, a8, a9, a10, a11, a12, a13, a14, a15, a16, a17, a18, a19, a20, a21, a22, a23] := by
  rcases bytes with _ | ⟨a0, _ | ⟨a1, _ | ⟨a2, _ | ⟨a3, _ | ⟨a4, _ | ⟨a5, _ | ⟨a6, _ | ⟨a7, _ | ⟨a8, _ | ⟨a9, _ | ⟨a10, _ | ⟨a11, _ | ⟨a12, _ | ⟨a13, _ | ⟨a14, _ | ⟨a15, _ | ⟨a16, _ | ⟨a17, _ | ⟨a18, _ | ⟨a19, _ | ⟨a20, _ | ⟨a21, _ | ⟨a22, _ | ⟨a23, _ | ⟨_, _⟩⟩⟩⟩⟩⟩⟩⟩⟩⟩⟩⟩⟩⟩⟩⟩⟩⟩⟩⟩⟩⟩⟩⟩⟩ <;>
    simp only [List.length_cons, List.length_nil] at h <;> first
    | omega
    | exact ⟨_, _, _, _, _, _, _, _, _, _, _, _, _, _, _, _, _, _, _, _, _, _, _, _, rfl⟩

/-- The memory image of the record decoded from 24 bytes is these 24 bytes. -/
theorem bytes_of_pcfg_of_bytes (bytes : List Byte) (h : bytes.length = 24) :
    bytes_of_pcfg (pcfg_of_bytes bytes) = bytes := by
  obtain ⟨a0, a1, a2, a3, a4, a5, a6, a7, a8, a9, a10, a11, a12, a13, a14, a15, a16, a17, a18, a19, a20, a21, a22, a23, rfl⟩ := length_24_cases bytes h
  simp [bytes_of_pcfg, pcfg_of_bytes, word_at, bytes_of_u32_le32]

theorem word_at_lt (bytes : List Byte) (k : Nat) : word_at bytes k < 2 ^ 32 :=
  le32_lt _ _ _ _

/-- C10: for a firmware answer that is a buffer, `thinkpad_wmi_password_settings`
returns 0 exactly when the buffer is 24 bytes long (six 4-byte fields); for any other
length it returns -EIO and leaves the output record as it was; on success the fields
`password_mode`, `password_state`, `min_length`, `max_length`, `supported_encodings`
and `supported_keyboard` are the 4-byte words 0 to 5 of the buffer, so that the record
occupies exactly the bytes of the buffer. -/
theorem password_settings_decode (P : Platform) (log : List wmi_call)
    (pcfg : thinkpad_wmi_pcfg) (bytes : List Byte)
    (hreply : P.firmware log (wmi_call.query Guid.LENOVO_BIOS_PASSWORD_SETTINGS_GUID 0) =
      { status := 0, pointer := some (acpi_object.buffer (some bytes)) }) :
    ((thinkpad_wmi_password_settings P log pcfg).1 = 0 ↔ bytes.length = 24) ∧
    (bytes.length ≠ 24 →
      (thinkpad_wmi_password_settings P log pcfg).1 = - EIO ∧
        (thinkpad_wmi_password_settings P log pcfg).2.1 = pcfg) ∧
    (bytes.length = 24 →
      (thinkpad_wmi_password_settings P log pcfg).2.1.password_mode = word_at bytes 0 ∧
      (thinkpad_wmi_password_settings P log pcfg).2.1.password_state = word_at bytes 1 ∧
      (thinkpad_wmi_password_settings P log pcfg).2.1.min_length = word_at bytes 2 ∧
      (thinkpad_wmi_password_settings P log pcfg).2.1.max_length = word_at bytes 3 ∧
      (thinkpad_wmi_password_settings P log pcfg).2.1.supported_encodings = word_at bytes 4 ∧
      (thinkpad_wmi_password_settings P log pcfg).2.1.supported_keyboard = word_at bytes 5 ∧
      bytes_of_pcfg (thinkpad_wmi_password_settings P log pcfg).2.1 = bytes) := by
  have hneg5 : (- EIO) ≠ 0 := by decide
  by_cases hlen : bytes.length = 24
  · have hr : thinkpad_wmi_password_settings P log pcfg =
        (0, pcfg_of_bytes bytes,
          log ++ [wmi_call.query Guid.LENOVO_BIOS_PASSWORD_SETTINGS_GUID 0]) := by
      simp [thinkpad_wmi_password_settings, hreply, ACPI_FAILURE, sizeof_pcfg, hlen]
    rw [hr]
    refine ⟨by simp [hlen], fun h => absurd hlen h, fun _ => ?_⟩
    exact ⟨rfl, rfl, rfl, rfl, rfl, rfl, bytes_of_pcfg_of_bytes bytes hlen⟩
  · have hr : thinkpad_wmi_password_settings P log pcfg =
        (- EIO, pcfg, log ++ [wmi_call.query Guid.LENOVO_BIOS_PASSWORD_SETTINGS_GUID 0]) := by
      simp [thinkpad_wmi_password_settings, hreply, ACPI_FAILURE, sizeof_pcfg, hlen]
    rw [hr]
    exact ⟨by simp [hlen, hneg5], fun _ => ⟨rfl, rfl⟩, fun h => absurd h hlen⟩

/-- Witness of C10: a 24-byte buffer decodes to its six little-endian words, and the
same buffer cut to 23 bytes is refused with -EIO. -/
theorem password_settings_decode_witness :
    (thinkpad_wmi_password_settings (stub_reply (buffer_reply sample_pcfg_bytes)) []
        (pcfg_of_bytes [])).1 = 0 ∧
    (thinkpad_wmi_password_settings (stub_reply (buffer_reply sample_pcfg_bytes)) []
        (pcfg_of_bytes [])).2.1 =
      { password_mode := 1, password_state := 2, min_length := 8, max_length := 64,
        supported_encodings := 257, supported_keyboard := 4294967295 } ∧
    (thinkpad_wmi_password_settings (stub_reply (buffer_reply (sample_pcfg_bytes.take 23))) []
        (pcfg_of_bytes [])).1 = - EIO :=
  ⟨(password_settings_decode (stub_reply (buffer_reply sample_pcfg_bytes)) []
      (pcfg_of_bytes []) sample_pcfg_bytes rfl).1.mpr (by decide),
    by decide,
    ((password_settings_decode (stub_reply (buffer_reply (sample_pcfg_bytes.take 23))) []
      (pcfg_of_bytes []) (sample_pcfg_bytes.take 23) rfl).2.1 (by decide)).1⟩

/-! ### The setters of the authentication fields -/

theorem auth_field_bound (dst : auth_field) :
    size_minus_one dst.sizeof = dst.sizeof - 1 ∧ dst.sizeof ≠ 0 ∧ dst.sizeof ≤ INT_MAX := by
  cases dst <;> decide

/-- A write that passes the capability and the length check stores the C string written,
cut after its last character that is no white space, and recomputes the token. -/
theorem store_attr_accept (dst : auth_field) (t : thinkpad_wmi) (buf : List Char)
    (hlen : buf.length ≤ dst.sizeof - 1) :
    store_attr dst true t buf =
      ((buf.length : Int),
        update_auth_string (dst.set t ((cstr buf).rdropWhile isspace))) := by
  obtain ⟨hs1, hs2, hs3⟩ := auth_field_bound dst
  have hlt : buf.length < dst.sizeof := by omega
  have hc : ¬ buf.length > size_minus_one dst.sizeof := by omega
  unfold store_attr store_auth
  simp only [Bool.not_true, Bool.false_eq_true, if_false, hc,
    strscpy_fits _ buf dst.sizeof hs3 hlt]
  rw [if_neg (by omega)]
  by_cases h0 : buf.length = 0
  · have hb : buf = [] := List.length_eq_zero.mp h0
    subst hb
    cases dst <;> rfl
  · simp only [h0, ne_eq, not_false_eq_true, if_true, strim]
    cases dst <;> rfl

/-- A write that fails the capability or the length check returns a negative errno and
leaves the device as it was. -/
theorem store_attr_reject (dst : auth_field) (capable : Bool) (t : thinkpad_wmi)
    (buf : List Char) (h : capable = false ∨ dst.sizeof - 1 < buf.length) :
    store_attr dst capable t buf = (if capable then -EINVAL else -EPERM, t) := by
  obtain ⟨hs1, -, -⟩ := auth_field_bound dst
  unfold store_attr store_auth
  cases capable
  · rfl
  · have hc : buf.length > size_minus_one dst.sizeof := by
      rcases h with h | h
      · cases h
      · omega
    simp [hc]

theorem update_auth_string_get (t : thinkpad_wmi) (dst : auth_field) :
    dst.get (update_auth_string t) = dst.get t := by
  unfold update_auth_string
  by_cases hp : t.password = [] <;> simp only [hp, if_true, if_false] <;> cases dst <;>
    simp [auth_field.get, hp]

theorem auth_field_get_set (t : thinkpad_wmi) (v : CStr) (dst : auth_field) :
    dst.get (dst.set t v) = v := by
  cases dst <;> rfl

/-- C11: a write through `store_auth` that is longer than the bound of its field
(`sizeof - 1`: 63 characters for `password` and `password_encoding`, 3 for
`password_kbdlang`) returns a negative errno, -EINVAL for a privileged caller, and
leaves the whole device state, password, encoding, keyboard layout and token included,
as it was; a write of exactly the bound length by a privileged caller is accepted: it
returns its length. -/
theorem store_auth_bound (dst : auth_field) (capable : Bool) (t : thinkpad_wmi)
    (buf : List Char) :
    (auth_field.password.sizeof - 1 = 63 ∧ auth_field.password_encoding.sizeof - 1 = 63 ∧
      auth_field.password_kbdlang.sizeof - 1 = 3) ∧
    (dst.sizeof - 1 < buf.length →
      (store_attr dst capable t buf).1 < 0 ∧
      (capable = true → (store_attr dst capable t buf).1 = -EINVAL) ∧
      (store_attr dst capable t buf).2 = t) ∧
    (buf.length = dst.sizeof - 1 →
      (store_attr dst true t buf).1 = (buf.length : Int) ∧
      dst.get (store_attr dst true t buf).2 = (cstr buf).rdropWhile isspace) := by
  refine ⟨⟨rfl, rfl, rfl⟩, ?_, ?_⟩
  · intro h
    rw [store_attr_reject dst capable t buf (Or.inr h)]
    cases capable <;> simp [EINVAL, EPERM]
  · intro h
    rw [store_attr_accept dst t buf (le_of_eq h)]
    exact ⟨rfl, by rw [update_auth_string_get, auth_field_get_set]⟩

/-- Witness of C11: with password "pw" and layout "us" stored, a keyboard layout write
of 4 characters is refused with -EINVAL and changes nothing, while one of 3 characters
is accepted. -/
theorem store_auth_bound_witness :
    ((store_attr auth_field.password_kbdlang true
        (run_auth_writes thinkpad_wmi_zero
          [⟨auth_field.password, true, "pw\n".toList⟩,
            ⟨auth_field.password_kbdlang, true, "us\n".toList⟩])
        "gb0\n".toList).1 = -EINVAL ∧
      (store_attr auth_field.password_kbdlang true
        (run_auth_writes thinkpad_wmi_zero
          [⟨auth_field.password, true, "pw\n".toList⟩,
            ⟨auth_field.password_kbdlang, true, "us\n".toList⟩])
        "gb0\n".toList).2 =
        run_auth_writes thinkpad_wmi_zero
          [⟨auth_field.password, true, "pw\n".toList⟩,
            ⟨auth_field.password_kbdlang, true, "us\n".toList⟩]) ∧
    (store_attr auth_field.password_kbdlang true
        (run_auth_writes thinkpad_wmi_zero
          [⟨auth_field.password, true, "pw\n".toList⟩,
            ⟨auth_field.password_kbdlang, true, "us\n".toList⟩])
        "gb\n".toList).1 = 3 :=
  ⟨⟨((store_auth_bound auth_field.password_kbdlang true _ "gb0\n".toList).2.1
        (by decide)).2.1 rfl,
      ((store_auth_bound auth_field.password_kbdlang true _ "gb0\n".toList).2.1
        (by decide)).2.2⟩,
    ((store_auth_bound auth_field.password_kbdlang true _ "gb\n".toList).2.2
      (by decide)).1⟩

theorem rdropWhile_no_trailing (l : CStr) :
    ∀ c ∈ (l.rdropWhile isspace).getLast?, isspace c = false := by
  intro c hc
  by_cases hl : l.rdropWhile isspace = []
  · rw [hl] at hc
    cases hc
  · rw [List.getLast?_eq_getLast _ hl] at hc
    have h := List.rdropWhile_last_not isspace l hl
    simp only [Option.mem_def, Option.some.injEq] at hc
    rw [← hc]
    simpa using h

/-- Counterexample to C12: the accepted password write " pw" followed by a newline
stores " pw": the trailing newline is gone but the leading blank is still there, so the
stored value is not the input without its surrounding white space, "pw". -/
theorem store_auth_keeps_leading_space :
    (store_attr auth_field.password true thinkpad_wmi_zero " pw\n".toList).1 = 4 ∧
    (store_attr auth_field.password true thinkpad_wmi_zero " pw\n".toList).2.password =
      " pw".toList ∧
    (store_attr auth_field.password true thinkpad_wmi_zero
      " pw\n".toList).2.password.head?.map isspace = some true ∧
    (strim " pw\n".toList).2 = "pw".toList ∧
    (store_attr auth_field.password true thinkpad_wmi_zero " pw\n".toList).2.password ≠
      (strim " pw\n".toList).2 ∧
    (store_attr auth_field.password true thinkpad_wmi_zero " pw\n".toList).2.auth_string =
      " pw".toList := by
  refine ⟨by decide, by decide, by decide, by decide, by decide, by decide⟩

/-- C12, amended: every accepted write through `store_auth`, the non-empty ones in
particular, stores the C string written with its trailing white space removed, so the
stored value has no trailing white space; its leading white space is kept (`strim` is
used for its effect on the buffer, its return value is dropped).  The token is derived
from the value so stored. -/
theorem store_auth_trims_trailing (dst : auth_field) (t : thinkpad_wmi) (buf : List Char)
    (hlen : buf.length ≤ dst.sizeof - 1) :
    (store_attr dst true t buf).1 = (buf.length : Int) ∧
    dst.get (store_attr dst true t buf).2 = (cstr buf).rdropWhile isspace ∧
    dst.get (store_attr dst true t buf).2 = (strim (cstr buf)).1 ∧
    (∀ c ∈ (dst.get (store_attr dst true t buf).2).getLast?, isspace c = false) ∧
    (store_attr dst true t buf).2 =
      update_auth_string (dst.set t ((cstr buf).rdropWhile isspace)) := by
  have hget : dst.get (store_attr dst true t buf).2 = (cstr buf).rdropWhile isspace := by
    rw [store_attr_accept dst t buf hlen, update_auth_string_get, auth_field_get_set]
  refine ⟨by rw [store_attr_accept dst t buf hlen], hget, hget, ?_,
    by rw [store_attr_accept dst t buf hlen]⟩
  rw [hget]
  exact rdropWhile_no_trailing _

/-- Witness of the amended C12: the encoding write " ascii " followed by a newline
stores " ascii", blank in front kept, blank and newline behind removed. -/
theorem store_auth_trims_trailing_witness :
    auth_field.password_encoding.get
        (store_attr auth_field.password_encoding true thinkpad_wmi_zero
          " ascii \n".toList).2 = " ascii".toList :=
  (store_auth_trims_trailing auth_field.password_encoding thinkpad_wmi_zero
    " ascii \n".toList (by decide)).2.1.trans (by decide)

/-! ### Length bounds of the authentication fields -/

theorem stored_length_le (buf : List Char) :
    ((cstr buf).rdropWhile isspace).length ≤ buf.length := by
  have h1 : ((cstr buf).rdropWhile isspace).length ≤ (cstr buf).length := by
    unfold List.rdropWhile
    rw [List.length_reverse]
    exact le_trans (List.dropWhile_sublist _).length_le (by rw [List.length_reverse])
  exact le_trans h1 (cstr_length_le buf)

theorem update_auth_string_length (t : thinkpad_wmi) :
    (update_auth_string t).auth_string.length ≤
      t.password.length + 1 + t.password_encoding.length + 1 + t.password_kbdlang.length := by
  unfold update_auth_string
  by_cases hp : t.password = []
  · simp [hp]
  · by_cases he : t.password_encoding = [] <;> by_cases hk : t.password_kbdlang = [] <;>
      simp [hp, he, hk, strcpy, strcat] <;> omega

/-- The stored fields never outgrow their arrays. -/
theorem run_auth_writes_bounds (ws : List auth_write) (t : thinkpad_wmi)
    (h : ∀ dst : auth_field, (dst.get t).length ≤ dst.sizeof - 1) :
    ∀ dst : auth_field, (dst.get (run_auth_writes t ws)).length ≤ dst.sizeof - 1 := by
  induction ws generalizing t with
  | nil => exact h
  | cons w ws ih =>
    apply ih
    intro dst
    by_cases hacc : w.capable = true ∧ w.buf.length ≤ w.dst.sizeof - 1
    · obtain ⟨hc, hl⟩ := hacc
      rw [hc, store_attr_accept w.dst t w.buf hl, update_auth_string_get]
      by_cases hd : dst = w.dst
      · subst hd
        rw [auth_field_get_set]
        exact le_trans (stored_length_le w.buf) hl
      · have hget : dst.get (w.dst.set t ((cstr w.buf).rdropWhile isspace)) = dst.get t := by
          cases dst <;> cases hw : w.dst <;> first
            | rfl
            | exact absurd hw.symm hd
        rw [hget]
        exact h dst
    · have hrej : w.capable = false ∨ w.dst.sizeof - 1 < w.buf.length := by
        cases hc : w.capable
        · exact Or.inl rfl
        · right
          by_contra hcon
          exact hacc ⟨hc, by omega⟩
      rw [store_attr_reject w.dst w.capable t w.buf hrej]
      exact h dst

/-- C16: in every state reached from the zeroed device by writes to the authentication
attributes, the stored password and encoding are at most 63 characters long and the
keyboard layout at most 3, and the token, which is the string `update_auth_string`
writes into the 256-byte `auth_string`, is at most 63+1+63+1+3 = 131 characters long: with
its terminator it fits the array, and its length never exceeds 255. -/
theorem auth_string_fits (ws : List auth_write) :
    (run_auth_writes thinkpad_wmi_zero ws).password.length ≤ 63 ∧
    (run_auth_writes thinkpad_wmi_zero ws).password_encoding.length ≤ 63 ∧
    (run_auth_writes thinkpad_wmi_zero ws).password_kbdlang.length ≤ 3 ∧
    (update_auth_string (run_auth_writes thinkpad_wmi_zero ws)).auth_string =
      (run_auth_writes thinkpad_wmi_zero ws).auth_string ∧
    (run_auth_writes thinkpad_wmi_zero ws).auth_string.length ≤ 63 + 1 + 63 + 1 + 3 ∧
    (run_auth_writes thinkpad_wmi_zero ws).auth_string.length + 1 ≤ 256 ∧
    (run_auth_writes thinkpad_wmi_zero ws).auth_string.length ≤ 255 := by
  have hb := run_auth_writes_bounds ws thinkpad_wmi_zero (by intro dst; cases dst <;> decide)
  have h1 : (run_auth_writes thinkpad_wmi_zero ws).password.length ≤ 63 :=
    hb auth_field.password
  have h2 : (run_auth_writes thinkpad_wmi_zero ws).password_encoding.length ≤ 63 :=
    hb auth_field.password_encoding
  have h3 : (run_auth_writes thinkpad_wmi_zero ws).password_kbdlang.length ≤ 3 :=
    hb auth_field.password_kbdlang
  have hfix := run_auth_writes_fixed ws thinkpad_wmi_zero rfl
  have hlen := update_auth_string_length (run_auth_writes thinkpad_wmi_zero ws)
  rw [hfix] at hlen
  refine ⟨h1, h2, h3, by rw [hfix], ?_, ?_, ?_⟩ <;> omega

set_option maxRecDepth 100000 in
/-- The bounds are reached: after writes of 63, 63 and 3 characters the token is 131
characters long. -/
theorem auth_string_fits_example :
    (run_auth_writes thinkpad_wmi_zero
      [⟨auth_field.password, true, List.replicate 63 'p'⟩,
        ⟨auth_field.password_encoding, true, List.replicate 63 'e'⟩,
        ⟨auth_field.password_kbdlang, true, List.replicate 3 'k'⟩]).auth_string.length
      = 131 := by
  decide

/-! ### Payloads of save, discard and load-defaults -/

/-- The payload `store_load_default` sends is the token itself. -/
theorem store_load_default_payload (P : Platform) (log : List wmi_call) (t : thinkpad_wmi)
    (buf : List Char) (count : Nat) :
    (store_load_default P log t buf count).2 =
      log ++ [wmi_call.method Guid.LENOVO_LOAD_DEFAULT_SETTINGS_GUID t.auth_string] := by
  unfold store_load_default thinkpad_wmi_load_default
  exact simple_call_log _ _ _ _

/-- C13 at the token "pw": the payload that `store_setting` passes to save-settings and
to discard-settings, and that `store_load_default` passes to load-defaults, is "pw", the
token without the closing ";" that the set-settings request of the same write carries
and that the argument formats in the source comments show ("pswd,ascii,us;"); with the
empty token the payload is the empty string, not ";". -/
theorem save_discard_load_payload_unterminated :
    store_setting stub_success [] (wake_on_lan_device "pw") 0 "Enable\n".toList 7 =
      some (7,
        [wmi_call.method Guid.LENOVO_SET_BIOS_SETTINGS_GUID "WakeOnLAN,Enable,pw;".toList,
          wmi_call.method Guid.LENOVO_SAVE_BIOS_SETTINGS_GUID "pw".toList]) ∧
    store_setting (stub_commit_fails (status_reply "Success")) []
        (wake_on_lan_device "pw") 0 "Enable\n".toList 7 =
      some (-EPERM,
        [wmi_call.method Guid.LENOVO_SET_BIOS_SETTINGS_GUID "WakeOnLAN,Enable,pw;".toList,
          wmi_call.method Guid.LENOVO_SAVE_BIOS_SETTINGS_GUID "pw".toList,
          wmi_call.method Guid.LENOVO_DISCARD_BIOS_SETTINGS_GUID "pw".toList]) ∧
    store_load_default stub_success [] (wake_on_lan_device "pw") "1\n".toList 2 =
      (0, [wmi_call.method Guid.LENOVO_LOAD_DEFAULT_SETTINGS_GUID "pw".toList]) ∧
    store_load_default stub_success [] (wake_on_lan_device "") "1\n".toList 2 =
      (0, [wmi_call.method Guid.LENOVO_LOAD_DEFAULT_SETTINGS_GUID "".toList]) ∧
    "pw".toList ≠ "pw;".toList ∧ "".toList ≠ ";".toList := by
  refine ⟨by decide, by decide, by decide, by decide, by decide, by decide⟩

/-! ### Requests of `store_password_change` -/

theorem store_password_change_buffer_eq (t : thinkpad_wmi) (n : CStr)
    (hnul : ∀ c ∈ n, c ≠ NUL) (htrail : ∀ c ∈ n.getLast?, isspace c = false) :
    store_password_change_buffer t n n.length =
      t.password_type ++ (if t.password ≠ [] then ",".toList ++ t.password else []) ++
        ",".toList ++ n ++
        (if t.password_encoding ≠ [] then ",".toList ++ t.password_encoding else []) ++
        (if t.password_kbdlang ≠ [] then ",".toList ++ t.password_kbdlang else []) ++
        ";".toList := by
  unfold store_password_change_buffer strncat strim strcat strcpy
  rw [cstr_eq_self n hnul, List.take_length]
  have hpre : (if t.password ≠ [] then t.password_type ++ ",".toList ++ t.password
      else t.password_type) =
      t.password_type ++ (if t.password ≠ [] then ",".toList ++ t.password else []) := by
    by_cases hp : t.password = [] <;> simp [hp]
  simp only [hpre]
  by_cases hn : n = []
  · subst hn
    by_cases he : t.password_encoding = [] <;> by_cases hk : t.password_kbdlang = [] <;>
      simp [he, hk]
  · have hlen : n.length ≠ 0 := by simpa using hn
    have hr := rdropWhile_isspace_append
      (t.password_type ++ (if t.password ≠ [] then ",".toList ++ t.password else []) ++
        ",".toList) n hn htrail
    simp only [hlen, ne_eq, not_false_eq_true, if_true, hr]
    by_cases he : t.password_encoding = [] <;> by_cases hk : t.password_kbdlang = [] <;>
      simp [he, hk]

/-- C14: for a privileged write of a new value `n` that is a C string (no NUL inside)
without trailing white space (a fortiori one without surrounding white space), and any
stored type, current password, encoding and keyboard layout, `store_password_change`
makes one firmware call, set-password, with the request: type, then `,current` when the
current password is non-empty, then `,n`, then `,encoding` and `,kbdlang` when these are
non-empty, closed by `;`. -/
theorem store_password_change_request (P : Platform) (log : List wmi_call)
    (t : thinkpad_wmi) (n : CStr) (halloc : P.alloc_ok log = true)
    (hnul : ∀ c ∈ n, c ≠ NUL) (htrail : ∀ c ∈ n.getLast?, isspace c = false) :
    (store_password_change true P log t n n.length).2 =
      log ++ [wmi_call.method Guid.LENOVO_SET_BIOS_PASSWORD_GUID
        (t.password_type ++ (if t.password ≠ [] then ",".toList ++ t.password else []) ++
          ",".toList ++ n ++
          (if t.password_encoding ≠ [] then ",".toList ++ t.password_encoding else []) ++
          (if t.password_kbdlang ≠ [] then ",".toList ++ t.password_kbdlang else []) ++
          ";".toList)] := by
  unfold store_password_change
  simp only [Bool.not_true, Bool.false_eq_true, if_false, halloc]
  rw [store_password_change_buffer_eq t n hnul htrail]
  generalize t.password_type ++ (if t.password ≠ [] then ",".toList ++ t.password else []) ++
    ",".toList ++ n ++
    (if t.password_encoding ≠ [] then ",".toList ++ t.password_encoding else []) ++
    (if t.password_kbdlang ≠ [] then ",".toList ++ t.password_kbdlang else []) ++
    ";".toList = B
  have hlog : (thinkpad_wmi_set_bios_password P log B).2 =
      log ++ [wmi_call.method Guid.LENOVO_SET_BIOS_PASSWORD_GUID B] :=
    simple_call_log _ _ _ _
  by_cases hr : (thinkpad_wmi_set_bios_password P log B).1 = 0
  · simp only [hr, ne_eq, not_true_eq_false, if_false, hlog]
  · simp only [hr, ne_eq, not_false_eq_true, if_true, hlog]

/-- Witness of C14: type "pop", current password "oldpop", new password "newpop",
encoding "ascii" and layout "us" give "pop,oldpop,newpop,ascii,us;"; with nothing but
the type stored the request is "pop,newpop;". -/
theorem store_password_change_request_witness :
    (store_password_change true stub_success [] pop_device "newpop".toList 6).2 =
      [wmi_call.method Guid.LENOVO_SET_BIOS_PASSWORD_GUID
        "pop,oldpop,newpop,ascii,us;".toList] ∧
    (store_password_change true stub_success []
        { thinkpad_wmi_zero with password_type := "pop".toList } "newpop".toList 6).2 =
      [wmi_call.method Guid.LENOVO_SET_BIOS_PASSWORD_GUID "pop,newpop;".toList] :=
  ⟨store_password_change_request stub_success [] pop_device "newpop".toList rfl
      (by decide) (by decide),
    store_password_change_request stub_success []
      { thinkpad_wmi_zero with password_type := "pop".toList } "newpop".toList rfl
      (by decide) (by decide)⟩

/-! ### Reading a setting -/

/-- When the value fetched for a setting has no comma and selections are not fetched,
`show_setting` returns 0 and writes nothing: the jump to `error` leaves `ret` at 0. -/
theorem show_setting_no_comma (P : Platform) (log : List wmi_call) (t : thinkpad_wmi)
    (item : Nat) (buf s : CStr) (hsel : t.can_get_bios_selections = false)
    (hfetch : thinkpad_wmi_bios_setting P log item none =
      (0, some s, log ++ [wmi_call.query Guid.LENOVO_BIOS_SETTING_GUID item]))
    (hcomma : ∀ c ∈ s, c ≠ ',') :
    show_setting P log t item buf =
      some (0, buf, log ++ [wmi_call.query Guid.LENOVO_BIOS_SETTING_GUID item]) := by
  have hdrop : s.dropWhile (fun x => x != ',') = [] := by
    rw [List.dropWhile_eq_nil_iff]
    intro c hc
    simpa using hcomma c hc
  unfold show_setting
  simp [hfetch, hsel, show_setting_output, strchr_after, hdrop]

/-- C15 at the answer "WakeOnLAN": the value of setting 0 is fetched successfully, is
not empty and holds no comma, and `show_setting` returns 0, a successful empty read
that leaves the output buffer untouched, where an answer that cannot be split should
give an error. -/
theorem show_setting_no_comma_returns_zero :
    thinkpad_wmi_bios_setting (stub_setting_reply "WakeOnLAN") [] 0 none =
      (0, some "WakeOnLAN".toList, [wmi_call.query Guid.LENOVO_BIOS_SETTING_GUID 0]) ∧
    show_setting (stub_setting_reply "WakeOnLAN") []
        (wake_on_lan_device "") 0 [] =
      some (0, [], [wmi_call.query Guid.LENOVO_BIOS_SETTING_GUID 0]) ∧
    show_setting (stub_setting_reply "WakeOnLAN") []
        { wake_on_lan_device "" with can_get_bios_selections := true } 0 [] =
      some (0, [], [wmi_call.query Guid.LENOVO_BIOS_SETTING_GUID 0,
        wmi_call.method Guid.LENOVO_GET_BIOS_SELECTIONS_GUID "WakeOnLAN".toList]) ∧
    show_setting (stub_setting_reply "WakeOnLAN,Enable") []
        (wake_on_lan_device "") 0 [] =
      some (7, "Enable\n".toList, [wmi_call.query Guid.LENOVO_BIOS_SETTING_GUID 0]) := by
  refine ⟨by decide, by decide, by decide, by decide⟩

end ThinkpadWmi
